import Mathlib

/-!
# First-person character controller: crouch state machine, footsteps, camera shake, input setup

A shallow embedding of `AFPCharacter` (FPCharacter.h / FPCharacter.cpp).

Conventions of the embedding:

* `float` is the field of rationals `ℚ`: the arithmetic of the controller (`Lerp`, `IsNearlyEqual`,
  comparisons) is modelled exactly, without rounding.
* The character is a record `AFPCharacter` holding the members declared in FPCharacter.h together
  with the engine-owned values the methods read and write through components (camera relative
  location, capsule half-height and radius, `MaxWalkSpeed`, the pawn's `Controller`).
  Engine setters are plain assignments.
* Everything the engine answers during one call (sweeps, floor probe, velocity, location, random
  numbers) is a `World` record passed to the call.
* Calls into the engine that have an effect are recorded as `Event`s, in call order.
* A method that may dereference a null pointer or index an array out of range returns an
  `Outcome`: the state and events reached when it returned or when it stopped at the fault.
-/

namespace FPCharacter

/-! ## Data model -/

/-- Engine vector of three floats. -/
structure FVector where
  X : ℚ
  Y : ℚ
  Z : ℚ
deriving DecidableEq

/-- Engine rotator (pitch, yaw, roll). -/
structure FRotator where
  Pitch : ℚ
  Yaw : ℚ
  Roll : ℚ
deriving DecidableEq

/-- Component-wise difference, `operator-` of FVector. -/
def FVector.sub (a b : FVector) : FVector := ⟨a.X - b.X, a.Y - b.Y, a.Z - b.Z⟩

/-- Crouch phase, FPCharacter.h lines 12-18. -/
inductive ECrouchPhase where
  | Standing
  | InTransition
  | Crouching
deriving DecidableEq

/-- Crouch action mode, FPCharacter.h lines 20-25. -/
inductive EPlayerActionType where
  | Hold
  | Toggle
deriving DecidableEq

/-- Identity of a physical material object (a pointer target). -/
abbrev UPhysicalMaterial := Nat

/-- A sound asset object; a pointer to it is an `Option USoundBase`. -/
structure USoundBase where
  id : Nat
  bPendingKill : Bool
deriving DecidableEq

/-- Engine `IsValid`: the pointer is non-null and the object is not pending kill. -/
def IsValid (p : Option USoundBase) : Bool :=
  match p with
  | none => false
  | some o => !o.bPendingKill

/-- Modelled from the spec: the footstep data asset `UFirstPersonFootstepData`
(FirstPersonFootstepData.h is not among the sources). One entry of the ordered surface-to-sound
table: the physical material it is registered for, its sound set, and the walk, run and crouch
strides, read through the getters that FPCharacter.cpp calls. -/
structure UFirstPersonFootstepData where
  GetPhysicalMaterial : Option UPhysicalMaterial
  GetFootstepSounds : List (Option USoundBase)
  GetFootstepStride_Walk : ℚ
  GetFootstepStride_Run : ℚ
  GetFootstepStride_Crouch : ℚ
deriving DecidableEq

/-- Camera shake class reference (`TSubclassOf<UMatineeCameraShake>`). -/
abbrev TSubclassOf := Nat

/-- FPCharacter.h lines 27-40. -/
structure FCameraShakes where
  IdleShake : TSubclassOf
  WalkShake : TSubclassOf
  RunShake : TSubclassOf
  JumpShake : TSubclassOf
deriving DecidableEq

/-- FPCharacter.h lines 42-54. -/
structure FFootstepSettings where
  bEnableFootsteps : Bool
  Mappings : List (Option UFirstPersonFootstepData)
  CurrentStride : ℚ
deriving DecidableEq

/-- FPCharacter.h lines 56-81. -/
structure FFirstPersonMovementSettings where
  WalkSpeed : ℚ
  CrouchSpeed : ℚ
  RunSpeed : ℚ
  JumpVelocity : ℚ
  StandToCrouchTransitionSpeed : ℚ
  BlockTestOffset : ℚ
  CrouchActionType : EPlayerActionType
deriving DecidableEq

/-- The part of an engine hit result that the controller reads after a floor probe. -/
structure FHitResult where
  PhysMaterial : Option UPhysicalMaterial
  Location : FVector
  /-- Name of the hit actor, `none` when `GetActor()` is null. -/
  Actor : Option String
deriving DecidableEq

/-- Engine floor probe result. -/
structure FFindFloorResult where
  bBlockingHit : Bool
  HitResult : FHitResult
deriving DecidableEq

/-- Keys used by the input bootstrap; `Other` stands for any other engine key. -/
inductive FKey where
  | SpaceBar | F | Escape | LeftShift | LeftControl | C
  | MouseX | MouseY | W | S | A | D
  | NAME_KeyboardCategory
  | Other (id : Nat)
deriving DecidableEq

/-- Engine action mapping. -/
structure FInputActionKeyMapping where
  ActionName : String
  Key : FKey
deriving DecidableEq

/-- Engine axis mapping. -/
structure FInputAxisKeyMapping where
  AxisName : String
  Key : FKey
  Scale : ℚ
deriving DecidableEq

/-- The character: members of FPCharacter.h lines 146-193 and the component values they drive. -/
structure AFPCharacter where
  bUseCustomKeyMappings : Bool
  Movement : FFirstPersonMovementSettings
  FootstepSettings : FFootstepSettings
  CameraShakes : FCameraShakes
  /-- The private member `PlayerController`, `none` when null. -/
  PlayerController : Option Nat
  CurrentFootstepMapping : Option UFirstPersonFootstepData
  LastFootstepLocation : FVector
  LastLocation : FVector
  FloorResult : FFindFloorResult
  TravelDistance : ℚ
  OriginalCapsuleHalfHeight : ℚ
  OriginalCameraLocation : FVector
  CrouchPhase : ECrouchPhase
  bWantsToCrouch : Bool
  bWantsToRun : Bool
  CurrentWalkSpeed : ℚ
  ActionMappings : List FInputActionKeyMapping
  AxisMappings : List FInputAxisKeyMapping
  /-- The pawn member `Controller`, `none` when null. -/
  Controller : Option Nat
  /-- Relative location of `CameraComponent`. -/
  CameraRelativeLocation : FVector
  /-- Unscaled half-height of the capsule component. -/
  CapsuleHalfHeight : ℚ
  /-- Unscaled radius of the capsule component. -/
  CapsuleRadius : ℚ
  /-- `GetCharacterMovement()->MaxWalkSpeed`. -/
  MaxWalkSpeed : ℚ
deriving DecidableEq

/-- What the engine answers during one call. -/
structure World where
  /-- Upward sphere sweep, from trace distance and sphere radius: `none` when nothing is hit,
  otherwise whether the hit component simulates physics. -/
  SweepSingleByChannel : ℚ → ℚ → Option Bool
  /-- Result of `FindFloor` at the capsule location. -/
  FindFloor : FFindFloorResult
  GetActorLocation : FVector
  /-- Length of the velocity vector. -/
  VelocitySize : ℚ
  IsMovingOnGround : Bool
  IsFalling : Bool
  CanJump : Bool
  GetControlRotation : FRotator
  /-- Engine vector length `FVector::Size`. -/
  Size : FVector → ℚ
  /-- Engine `FMath::RandRange(Min, Max)`, indexed by the number of the draw within the call. -/
  RandRange : Nat → ℤ → ℤ → ℤ

/-- Effects on the engine, in call order. -/
inductive Event where
  | ClientStartCameraShake (Shake : TSubclassOf) (Scale : ℚ)
  | PlayFootstepSound
  | PlaySoundAtLocation (Sound : Option USoundBase) (Location : FVector) (VolumeMultiplier : ℚ)
  | Log (Message : String)
  | SuperJump
  | SuperLanded
  | AddMovementInput (Rotation : FRotator) (ScaleValue : ℚ)
deriving DecidableEq

/-- Ways a call can stop before returning. -/
inductive Fault where
  | NullDereference
  | IndexOutOfRange
deriving DecidableEq

/-- State and events reached by a call, and whether it returned (`ok`) or stopped at a fault. -/
structure Outcome (α : Type) where
  state : AFPCharacter
  events : List Event
  ret : Except Fault α

/-- The global input settings as the bootstrap reads them. -/
structure UInputSettings where
  GetActionMappings : List FInputActionKeyMapping
  GetAxisMappings : List FInputAxisKeyMapping
deriving DecidableEq

/-- Operations performed on the global input settings, in call order. -/
inductive InputOp where
  | RemoveActionMapping (Mapping : FInputActionKeyMapping)
  | RemoveAxisMapping (Mapping : FInputAxisKeyMapping)
  | AddActionMapping (Mapping : FInputActionKeyMapping)
  | AddAxisMapping (Mapping : FInputAxisKeyMapping)
  | SaveKeyMappings
  | ForceRebuildKeymaps
deriving DecidableEq

/-- The event is a camera-shake call on the player controller. -/
def Event.isCameraShake : Event → Bool
  | Event.ClientStartCameraShake _ _ => true
  | _ => false

/-- The event is a sound-play call. -/
def Event.isPlaySound : Event → Bool
  | Event.PlaySoundAtLocation _ _ _ => true
  | _ => false

/-- The event is a log entry. -/
def Event.isLog : Event → Bool
  | Event.Log _ => true
  | _ => false

/-! ## Engine math -/

/-- `FMath::Lerp` on floats: `A + Alpha * (B - A)`. -/
def FMath.Lerp (A B Alpha : ℚ) : ℚ := A + Alpha * (B - A)

/-- `FMath::Lerp` on vectors, component-wise. -/
def FMath.LerpVector (A B : FVector) (Alpha : ℚ) : FVector :=
  ⟨FMath.Lerp A.X B.X Alpha, FMath.Lerp A.Y B.Y Alpha, FMath.Lerp A.Z B.Z Alpha⟩

/-- `FMath::IsNearlyEqual`: `Abs(A - B) <= ErrorTolerance`. -/
def FMath.IsNearlyEqual (A B ErrorTolerance : ℚ) : Bool := decide (|A - B| ≤ ErrorTolerance)

/-- `TArray::operator[]` with its range check: `none` is an out-of-range access. -/
def TArray.get {α : Type} (xs : List α) (Index : ℤ) : Option α :=
  if 0 ≤ Index then xs.get? Index.toNat else none

/-- `TMap::Add`: replaces the value of a key already present, otherwise appends the pair;
iteration (GenerateKeyArray, GenerateValueArray) follows insertion order. -/
def TMap.Add {K V : Type} [DecidableEq K] (m : List (K × V)) (Key : K) (Value : V) : List (K × V) :=
  if m.any (fun e => e.1 = Key) then m.map (fun e => if e.1 = Key then (Key, Value) else e)
  else m ++ [(Key, Value)]

namespace AFPCharacter

/-! ## Crouch state machine (FPCharacter.cpp lines 142-177, 252-344) -/

/-- FPCharacter.cpp lines 305-344. -/
def IsBlockedInCrouchStance (s : AFPCharacter) (w : World) : Bool :=
  let CurrentHalfHeight := s.CapsuleHalfHeight - s.CapsuleRadius
  let TraceDistance :=
    if s.Movement.CrouchActionType = EPlayerActionType.Hold
    then CurrentHalfHeight + s.Movement.BlockTestOffset
    else s.OriginalCapsuleHalfHeight
  match w.SweepSingleByChannel TraceDistance s.CapsuleRadius with
  | some bOtherSimulatesPhysics => !bOtherSimulatesPhysics
  | none => false

/-- FPCharacter.cpp lines 142-168. -/
def StartCrouch (s : AFPCharacter) (w : World) : AFPCharacter :=
  match s.Movement.CrouchActionType with
  | EPlayerActionType.Hold =>
      { s with bWantsToCrouch := true, CrouchPhase := ECrouchPhase.InTransition }
  | EPlayerActionType.Toggle =>
      if s.bWantsToCrouch && !IsBlockedInCrouchStance s w then
        { s with bWantsToCrouch := false, CrouchPhase := ECrouchPhase.InTransition }
      else if !s.bWantsToCrouch then
        { s with bWantsToCrouch := true, CrouchPhase := ECrouchPhase.InTransition }
      else s

/-- FPCharacter.cpp lines 170-177. -/
def StopCrouching (s : AFPCharacter) : AFPCharacter :=
  if s.Movement.CrouchActionType = EPlayerActionType.Hold then
    { s with bWantsToCrouch := false, CrouchPhase := ECrouchPhase.InTransition }
  else s

/-- FPCharacter.cpp lines 252-303. -/
def UpdateCrouch (s : AFPCharacter) (w : World) (DeltaTime : ℚ) : AFPCharacter :=
  if s.CrouchPhase = ECrouchPhase.InTransition then
    let ErrorMargin : ℚ := 2
    if s.bWantsToCrouch then
      let NewLocation := FMath.LerpVector s.CameraRelativeLocation ⟨0, 0, 30⟩
        (s.Movement.StandToCrouchTransitionSpeed * DeltaTime)
      let NewHalfHeight := FMath.Lerp s.CapsuleHalfHeight (s.OriginalCapsuleHalfHeight / 2)
        (s.Movement.StandToCrouchTransitionSpeed * DeltaTime)
      let NewWalkSpeed := FMath.Lerp s.MaxWalkSpeed s.Movement.CrouchSpeed
        (s.Movement.StandToCrouchTransitionSpeed * DeltaTime)
      if FMath.IsNearlyEqual NewHalfHeight (s.OriginalCapsuleHalfHeight / 2) ErrorMargin then
        { s with
          CameraRelativeLocation := ⟨0, 0, 30⟩
          CapsuleHalfHeight := s.OriginalCapsuleHalfHeight / 2
          MaxWalkSpeed := s.Movement.CrouchSpeed
          CrouchPhase := ECrouchPhase.Crouching }
      else
        { s with
          CameraRelativeLocation := NewLocation
          CapsuleHalfHeight := NewHalfHeight
          MaxWalkSpeed := NewWalkSpeed }
    else if !(decide (s.Movement.CrouchActionType = EPlayerActionType.Hold)
              && IsBlockedInCrouchStance s w) then
      let NewLocation := FMath.LerpVector s.CameraRelativeLocation s.OriginalCameraLocation
        (s.Movement.StandToCrouchTransitionSpeed * DeltaTime)
      let NewHalfHeight := FMath.Lerp s.CapsuleHalfHeight s.OriginalCapsuleHalfHeight
        (s.Movement.StandToCrouchTransitionSpeed * DeltaTime)
      let NewWalkSpeed := FMath.Lerp s.MaxWalkSpeed s.CurrentWalkSpeed
        (s.Movement.StandToCrouchTransitionSpeed * DeltaTime)
      if FMath.IsNearlyEqual NewHalfHeight s.OriginalCapsuleHalfHeight ErrorMargin then
        { s with
          CameraRelativeLocation := s.OriginalCameraLocation
          CapsuleHalfHeight := s.OriginalCapsuleHalfHeight
          CrouchPhase := ECrouchPhase.Standing
          MaxWalkSpeed := s.CurrentWalkSpeed }
      else
        { s with
          CameraRelativeLocation := NewLocation
          CapsuleHalfHeight := NewHalfHeight
          MaxWalkSpeed := NewWalkSpeed }
    else s
  else s

/-- A sequence of `UpdateCrouch` calls, one per tick, each with its frame time and world. -/
def UpdateCrouchTicks (s : AFPCharacter) : List (ℚ × World) → AFPCharacter
  | [] => s
  | t :: rest => UpdateCrouchTicks (UpdateCrouch s t.2 t.1) rest

/-- The blocked check reports an obstruction at every tick of the sequence, each time in the
state the character has at that tick. -/
def BlockedAtEveryTick (s : AFPCharacter) : List (ℚ × World) → Prop
  | [] => True
  | t :: rest => IsBlockedInCrouchStance s t.2 = true ∧ BlockedAtEveryTick (UpdateCrouch s t.2 t.1) rest

/-! ## Walking speed and tick (FPCharacter.cpp lines 79-87, 233-250, 346-361) -/

/-- FPCharacter.cpp lines 233-236. -/
def Run (s : AFPCharacter) : AFPCharacter := { s with bWantsToRun := true }

/-- FPCharacter.cpp lines 238-241. -/
def StopRunning (s : AFPCharacter) : AFPCharacter := { s with bWantsToRun := false }

/-- FPCharacter.cpp lines 243-250. -/
def UpdateWalkingSpeed (s : AFPCharacter) : AFPCharacter :=
  if s.CrouchPhase = ECrouchPhase.Standing then
    let NewSpeed := if s.bWantsToRun then s.Movement.RunSpeed else s.Movement.WalkSpeed
    { s with CurrentWalkSpeed := NewSpeed, MaxWalkSpeed := NewSpeed }
  else s

/-- FPCharacter.cpp lines 346-361: the camera-shake calls of one tick. The state is not changed. -/
def UpdateCameraShake (s : AFPCharacter) (w : World) : List Event :=
  match s.PlayerController with
  | some _ =>
    (if decide (w.VelocitySize > 0) && w.CanJump
      then [Event.ClientStartCameraShake s.CameraShakes.WalkShake 2]
      else [Event.ClientStartCameraShake s.CameraShakes.IdleShake 1])
    ++
    (if decide (w.VelocitySize > 0) && decide (s.MaxWalkSpeed ≥ s.Movement.RunSpeed) && w.CanJump
      then [Event.ClientStartCameraShake s.CameraShakes.RunShake 1]
      else [])
  | none => []

/-- FPCharacter.cpp lines 79-87: camera shake, then crouch update, then walking speed. -/
def Tick (s : AFPCharacter) (w : World) (DeltaTime : ℚ) : AFPCharacter × List Event :=
  let shakes := UpdateCameraShake s w
  let s1 := UpdateCrouch s w DeltaTime
  (UpdateWalkingSpeed s1, shakes)

/-! ## Footsteps (FPCharacter.cpp lines 179-218, 373-411) -/

/-- The stride that line 404 selects from a mapping: crouch stride unless standing, otherwise
run stride when running, otherwise walk stride. -/
def SelectStride (s : AFPCharacter) (M : UFirstPersonFootstepData) : ℚ :=
  if s.CrouchPhase ≠ ECrouchPhase.Standing then M.GetFootstepStride_Crouch
  else if s.bWantsToRun then M.GetFootstepStride_Run
  else M.GetFootstepStride_Walk

/-- The index that line 405 draws: `RandRange(0, Num() - 1)`. -/
def FootstepSoundIndex (M : UFirstPersonFootstepData) (RandRange : ℤ → ℤ → ℤ) : ℤ :=
  RandRange 0 ((M.GetFootstepSounds.length : ℤ) - 1)

/-- The loop of FPCharacter.cpp lines 399-410 over the remaining mappings. -/
def GetFootstepSoundLoop (s : AFPCharacter) (Surface : Option UPhysicalMaterial)
    (RandRange : ℤ → ℤ → ℤ) :
    List (Option UFirstPersonFootstepData) → Outcome (Option USoundBase)
  | [] => ⟨s, [Event.Log "No footstep sound"], Except.ok none⟩
  | none :: rest => GetFootstepSoundLoop s Surface RandRange rest
  | some FootstepMapping :: rest =>
    if FootstepMapping.GetPhysicalMaterial = Surface then
      let s1 : AFPCharacter :=
        { s with
          CurrentFootstepMapping := some FootstepMapping
          FootstepSettings :=
            { s.FootstepSettings with CurrentStride := SelectStride s FootstepMapping } }
      match TArray.get FootstepMapping.GetFootstepSounds
          (FootstepSoundIndex FootstepMapping RandRange) with
      | some Sound => ⟨s1, [], Except.ok Sound⟩
      | none => ⟨s1, [], Except.error Fault.IndexOutOfRange⟩
    else GetFootstepSoundLoop s Surface RandRange rest

/-- FPCharacter.cpp lines 397-411. -/
def GetFootstepSound (s : AFPCharacter) (Surface : Option UPhysicalMaterial)
    (RandRange : ℤ → ℤ → ℤ) : Outcome (Option USoundBase) :=
  GetFootstepSoundLoop s Surface RandRange s.FootstepSettings.Mappings

/-- FPCharacter.cpp lines 373-395. The first event marks the invocation. -/
def PlayFootstepSound (s : AFPCharacter) (w : World) : Outcome Unit :=
  let s0 : AFPCharacter := { s with FloorResult := w.FindFloor }
  let Hit := w.FindFloor.HitResult
  if w.FindFloor.bBlockingHit then
    let r1 := GetFootstepSound s0 Hit.PhysMaterial (w.RandRange 0)
    match r1.ret with
    | Except.error f => ⟨r1.state, Event.PlayFootstepSound :: r1.events, Except.error f⟩
    | Except.ok Checked =>
      if IsValid Checked then
        let r2 := GetFootstepSound r1.state Hit.PhysMaterial (w.RandRange 1)
        match r2.ret with
        | Except.error f =>
          ⟨r2.state, Event.PlayFootstepSound :: (r1.events ++ r2.events), Except.error f⟩
        | Except.ok Sound =>
          let Volume : ℚ := if s.CrouchPhase ≠ ECrouchPhase.Standing then 35 / 100 else 1
          ⟨{ r2.state with LastFootstepLocation := Hit.Location },
            Event.PlayFootstepSound ::
              (r1.events ++ r2.events ++ [Event.PlaySoundAtLocation Sound Hit.Location Volume]),
            Except.ok ()⟩
      else
        let ActorLog :=
          match Hit.Actor with
          | some Name => [Event.Log ("No physical material found for " ++ Name)]
          | none => []
        ⟨{ r1.state with LastFootstepLocation := Hit.Location },
          Event.PlayFootstepSound :: (r1.events ++ ActorLog), Except.ok ()⟩
  else
    ⟨{ s0 with LastFootstepLocation := Hit.Location }, [Event.PlayFootstepSound], Except.ok ()⟩

/-- FPCharacter.cpp lines 197-208: the travel accumulator update of MoveForward. -/
def AccumulateTravel (s : AFPCharacter) (w : World) : AFPCharacter :=
  if decide (w.VelocitySize > 0) && w.IsMovingOnGround then
    { s with
      TravelDistance := s.TravelDistance + w.Size (FVector.sub w.GetActorLocation s.LastLocation)
      LastLocation := w.GetActorLocation }
  else if w.IsFalling then
    { s with LastLocation := w.GetActorLocation, TravelDistance := 0 }
  else s

/-- FPCharacter.cpp lines 179-218. -/
def MoveForward (s : AFPCharacter) (w : World) (AxisValue : ℚ) : Outcome Unit :=
  match s.Controller with
  | none => ⟨s, [], Except.ok ()⟩
  | some _ =>
    let ForwardRotation : FRotator :=
      if w.IsMovingOnGround || w.IsFalling
      then { w.GetControlRotation with Pitch := 0 }
      else w.GetControlRotation
    let Input := Event.AddMovementInput ForwardRotation AxisValue
    if s.FootstepSettings.bEnableFootsteps then
      let s1 := AccumulateTravel s w
      if w.IsMovingOnGround && decide (s1.TravelDistance > s1.FootstepSettings.CurrentStride) then
        let r := PlayFootstepSound s1 w
        match r.ret with
        | Except.error f => ⟨r.state, Input :: r.events, Except.error f⟩
        | Except.ok _ => ⟨{ r.state with TravelDistance := 0 }, Input :: r.events, Except.ok ()⟩
      else ⟨s1, [Input], Except.ok ()⟩
    else ⟨s, [Input], Except.ok ()⟩

/-! ## Jump and landing (FPCharacter.cpp lines 110-133) -/

/-- FPCharacter.cpp lines 110-119. The shake is started with the engine's default scale 1. -/
def Jump (s : AFPCharacter) : Outcome Unit :=
  if s.CrouchPhase = ECrouchPhase.Standing then
    match s.PlayerController with
    | none => ⟨s, [Event.SuperJump], Except.error Fault.NullDereference⟩
    | some _ =>
      ⟨s, [Event.SuperJump, Event.ClientStartCameraShake s.CameraShakes.JumpShake 1], Except.ok ()⟩
  else ⟨s, [], Except.ok ()⟩

/-- FPCharacter.cpp lines 121-133. The hit is only handed to the base class. -/
def Landed (s : AFPCharacter) (w : World) (_Hit : FHitResult) : Outcome Unit :=
  if s.CrouchPhase = ECrouchPhase.Standing then
    match s.PlayerController with
    | none => ⟨s, [Event.SuperLanded], Except.error Fault.NullDereference⟩
    | some _ =>
      let Shake := Event.ClientStartCameraShake s.CameraShakes.JumpShake 3
      if s.FootstepSettings.bEnableFootsteps then
        let r := PlayFootstepSound s w
        ⟨r.state, Event.SuperLanded :: Shake :: r.events, r.ret⟩
      else ⟨s, [Event.SuperLanded, Shake], Except.ok ()⟩
  else ⟨s, [], Except.ok ()⟩

/-! ## Input binding bootstrap (FPCharacter.cpp lines 413-506) -/

/-- FPCharacter.cpp lines 430-437: one removal per captured mapping, actions first. -/
def ResetInputBindings (s : AFPCharacter) : List InputOp :=
  s.ActionMappings.map InputOp.RemoveActionMapping ++ s.AxisMappings.map InputOp.RemoveAxisMapping

/-- FPCharacter.cpp lines 451-456: the action map, in insertion order. -/
def DefaultActionMap : List (FKey × String) :=
  TMap.Add (TMap.Add (TMap.Add (TMap.Add (TMap.Add (TMap.Add []
    FKey.SpaceBar "Jump") FKey.F "Interact") FKey.Escape "Escape") FKey.LeftShift "Run")
    FKey.LeftControl "Crouch") FKey.C "Crouch"

/-- FPCharacter.cpp lines 457-462: the axis map, in insertion order. -/
def DefaultAxisMap : List (FKey × String) :=
  TMap.Add (TMap.Add (TMap.Add (TMap.Add (TMap.Add (TMap.Add []
    FKey.MouseX "Turn") FKey.MouseY "LookUp") FKey.W "MoveForward") FKey.S "MoveForward")
    FKey.A "MoveRight") FKey.D "MoveRight"

/-- FPCharacter.cpp lines 465-471: the lambda SetActionMapping. -/
def SetActionMapping (s : AFPCharacter) (Name : String) (Key : FKey) : InputOp :=
  InputOp.AddActionMapping
    ⟨Name, if s.bUseCustomKeyMappings then FKey.NAME_KeyboardCategory else Key⟩

/-- FPCharacter.cpp lines 474-481: the lambda SetAxisMapping. -/
def SetAxisMapping (s : AFPCharacter) (Name : String) (Key : FKey) (Scale : ℚ) : InputOp :=
  InputOp.AddAxisMapping
    ⟨Name, if s.bUseCustomKeyMappings then FKey.NAME_KeyboardCategory else Key, Scale⟩

/-- FPCharacter.cpp lines 439-506. -/
def ResetToDefaultInputBindings (s : AFPCharacter) : List InputOp :=
  ResetInputBindings s
  ++ DefaultActionMap.map (fun e => SetActionMapping s e.2 e.1)
  ++ DefaultAxisMap.map (fun e =>
      let bIsNegativeScale := e.1 = FKey.S ∨ e.1 = FKey.A ∨ e.1 = FKey.MouseY
      SetAxisMapping s e.2 e.1 (if bIsNegativeScale then -1 else 1))
  ++ [InputOp.SaveKeyMappings, InputOp.ForceRebuildKeymaps]

/-- FPCharacter.cpp lines 413-428: from the mappings found in the input settings to the new state
and the operations performed on the input settings. -/
def SetupInputBindings (s : AFPCharacter) (Input : UInputSettings) :
    AFPCharacter × List InputOp :=
  let s1 : AFPCharacter :=
    { s with ActionMappings := Input.GetActionMappings, AxisMappings := Input.GetAxisMappings }
  if s1.ActionMappings.length > 0 ∨ s1.AxisMappings.length > 0 then
    if !s1.bUseCustomKeyMappings then (s1, ResetToDefaultInputBindings s1)
    else (s1, [])
  else (s1, ResetToDefaultInputBindings s1)

/-! ## Terminal states of the crouch transition -/

/-- The state written by FPCharacter.cpp lines 268-271 when the crouch-down transition commits. -/
def CommitCrouching (s : AFPCharacter) : AFPCharacter :=
  { s with
    CameraRelativeLocation := ⟨0, 0, 30⟩
    CapsuleHalfHeight := s.OriginalCapsuleHalfHeight / 2
    MaxWalkSpeed := s.Movement.CrouchSpeed
    CrouchPhase := ECrouchPhase.Crouching }

/-- The state written by FPCharacter.cpp lines 290-293 when the stand-up transition commits. -/
def CommitStanding (s : AFPCharacter) : AFPCharacter :=
  { s with
    CameraRelativeLocation := s.OriginalCameraLocation
    CapsuleHalfHeight := s.OriginalCapsuleHalfHeight
    CrouchPhase := ECrouchPhase.Standing
    MaxWalkSpeed := s.CurrentWalkSpeed }

/-- The step factor of one tick: `Movement.StandToCrouchTransitionSpeed * DeltaTime`. -/
def StepFactor (s : AFPCharacter) (DeltaTime : ℚ) : ℚ :=
  s.Movement.StandToCrouchTransitionSpeed * DeltaTime

/-- The half-height the transition is heading for: half the original when crouching down, the
original when standing up. -/
def TargetHalfHeight (s : AFPCharacter) : ℚ :=
  if s.bWantsToCrouch then s.OriginalCapsuleHalfHeight / 2 else s.OriginalCapsuleHalfHeight

/-- The stand-up branch of UpdateCrouch is skipped: Hold mode and the blocked check is true
(FPCharacter.cpp line 280). -/
def StandUpBlocked (s : AFPCharacter) (w : World) : Bool :=
  decide (s.Movement.CrouchActionType = EPlayerActionType.Hold) && IsBlockedInCrouchStance s w

/-- A crouch key press followed by a run of UpdateCrouch ticks. -/
def PressThenTicks (s : AFPCharacter) (w : World) (ticks : List (ℚ × World)) : AFPCharacter :=
  UpdateCrouchTicks (StartCrouch s w) ticks

/-! ## Runs of operations -/

/-- The operations the engine can invoke on the character, with what the engine supplies to
each. -/
inductive Op where
  | StartCrouch (w : World)
  | StopCrouching
  | Tick (w : World) (DeltaTime : ℚ)
  | Run
  | StopRunning
  | Jump
  | Landed (w : World) (Hit : FHitResult)
  | MoveForward (w : World) (AxisValue : ℚ)

/-- The state after one operation. For a call that stops at a fault this is the state reached at
the fault. -/
def ApplyOp (s : AFPCharacter) : Op → AFPCharacter
  | Op.StartCrouch w => StartCrouch s w
  | Op.StopCrouching => StopCrouching s
  | Op.Tick w DeltaTime => (Tick s w DeltaTime).1
  | Op.Run => Run s
  | Op.StopRunning => StopRunning s
  | Op.Jump => (Jump s).state
  | Op.Landed w Hit => (Landed s w Hit).state
  | Op.MoveForward w AxisValue => (MoveForward s w AxisValue).state

/-- The state after a sequence of operations, in order. -/
def RunOps (s : AFPCharacter) : List Op → AFPCharacter
  | [] => s
  | op :: rest => RunOps (ApplyOp s op) rest

/-- Intent and phase agree: Standing only without the wish to crouch, Crouching only with it. -/
def Coherent (s : AFPCharacter) : Prop :=
  (s.CrouchPhase = ECrouchPhase.Standing → s.bWantsToCrouch = false) ∧
  (s.CrouchPhase = ECrouchPhase.Crouching → s.bWantsToCrouch = true)

/-! ## Reading the event trace -/

/-- Number of PlayFootstepSound invocations in a trace. -/
def FootstepCalls (events : List Event) : Nat := events.count Event.PlayFootstepSound

end AFPCharacter

/-! ## Sample data -/

/-- The zero vector. -/
def FVector.zero : FVector := ⟨0, 0, 0⟩

/-- A world with an obstruction that does not simulate physics above the character, a floor of
material 1 belonging to actor Floor, and the character at rest on the ground. Its vector length
is the sum of the absolute components, which is the engine's length on every vector along one
axis, the only vectors the sample data measure. -/
def blockedWorld : World where
  SweepSingleByChannel := fun _ _ => some false
  FindFloor := ⟨true, ⟨some 1, FVector.zero, some "Floor"⟩⟩
  GetActorLocation := FVector.zero
  VelocitySize := 0
  IsMovingOnGround := true
  IsFalling := false
  CanJump := true
  GetControlRotation := ⟨0, 0, 0⟩
  Size := fun v => |v.X| + |v.Y| + |v.Z|
  RandRange := fun _ Min _ => Min

/-- The same world with nothing above the character. -/
def freeWorld : World := { blockedWorld with SweepSingleByChannel := fun _ _ => none }

/-- Header defaults of the movement settings with the given crouch mode. -/
def defaultMovement (mode : EPlayerActionType) : FFirstPersonMovementSettings :=
  ⟨300, 150, 500, 300, 10, 0, mode⟩

/-- A character as left by the constructor and BeginPlay with the header defaults: standing,
capsule half-height 88 and radius 34, camera at height 70, no footstep mappings. -/
def standingCharacter (mode : EPlayerActionType) : AFPCharacter where
  bUseCustomKeyMappings := false
  Movement := defaultMovement mode
  FootstepSettings := ⟨true, [], 160⟩
  CameraShakes := ⟨1, 2, 3, 4⟩
  PlayerController := some 0
  CurrentFootstepMapping := none
  LastFootstepLocation := FVector.zero
  LastLocation := FVector.zero
  FloorResult := ⟨false, ⟨none, FVector.zero, none⟩⟩
  TravelDistance := 0
  OriginalCapsuleHalfHeight := 88
  OriginalCameraLocation := ⟨0, 0, 70⟩
  CrouchPhase := ECrouchPhase.Standing
  bWantsToCrouch := false
  bWantsToRun := false
  CurrentWalkSpeed := 300
  ActionMappings := []
  AxisMappings := []
  Controller := some 0
  CameraRelativeLocation := ⟨0, 0, 70⟩
  CapsuleHalfHeight := 88
  CapsuleRadius := 34
  MaxWalkSpeed := 300

/-- A crouched character that has just been told to stand up: half-height 44, camera at 30,
phase InTransition with bWantsToCrouch false. -/
def standingUpCharacter (mode : EPlayerActionType) : AFPCharacter :=
  { standingCharacter mode with
    CrouchPhase := ECrouchPhase.InTransition
    bWantsToCrouch := false
    CameraRelativeLocation := ⟨0, 0, 30⟩
    CapsuleHalfHeight := 44
    MaxWalkSpeed := 150 }

/-- A footstep mapping for material 1 with two sounds; strides 160 (walk), 200 (run), 100
(crouch). -/
def grassMapping : UFirstPersonFootstepData :=
  ⟨some 1, [some ⟨10, false⟩, some ⟨11, false⟩], 160, 200, 100⟩

/-- A second mapping for material 1, later in the list, with other strides. -/
def laterMapping : UFirstPersonFootstepData :=
  ⟨some 1, [some ⟨20, false⟩], 50, 60, 70⟩

/-- A footstep mapping for material 2. -/
def gravelMapping : UFirstPersonFootstepData :=
  ⟨some 2, [some ⟨30, false⟩], 120, 150, 80⟩

/-- A footstep mapping for material 1 whose sound set is empty. -/
def silentMapping : UFirstPersonFootstepData :=
  ⟨some 1, [], 160, 200, 100⟩

/-- The default standing character with the given footstep mappings. -/
def characterWithMappings (Mappings : List (Option UFirstPersonFootstepData)) : AFPCharacter :=
  { standingCharacter EPlayerActionType.Hold with FootstepSettings := ⟨true, Mappings, 160⟩ }

/-- The default standing character with a null PlayerController. -/
def uncontrolledCharacter : AFPCharacter :=
  { standingCharacter EPlayerActionType.Hold with PlayerController := none }

/-- A world in which the character walks on the ground and stands 170 units along X from the
origin, over a floor of material 1 belonging to actor Floor. -/
def walkingWorld : World :=
  { blockedWorld with VelocitySize := 300, GetActorLocation := ⟨170, 0, 0⟩ }

/-- A landing hit on the floor of material 1. -/
def floorHit : FHitResult := ⟨some 1, FVector.zero, some "Floor"⟩

/-- The default standing character with the custom-key-mappings flag set. -/
def customKeysCharacter : AFPCharacter :=
  { standingCharacter EPlayerActionType.Hold with bUseCustomKeyMappings := true }

/-- Input settings without any mapping. -/
def emptyInput : UInputSettings := ⟨[], []⟩

/-- Input settings with one action mapping (Fire on key 7) and one axis mapping (Zoom on key 8). -/
def customInput : UInputSettings := ⟨[⟨"Fire", FKey.Other 7⟩], [⟨"Zoom", FKey.Other 8, 1⟩]⟩

/-- A standing character that has just been told to crouch: half-height 88, camera at 70,
phase InTransition with bWantsToCrouch true. -/
def crouchingDownCharacter (mode : EPlayerActionType) : AFPCharacter :=
  { standingCharacter mode with
    CrouchPhase := ECrouchPhase.InTransition
    bWantsToCrouch := true }

/-! ## Crouch state machine: blocked stand-up -/

namespace AFPCharacter

/-- In Hold mode a blocked tick of a character that is standing up changes nothing. -/
theorem UpdateCrouch_hold_blocked (s : AFPCharacter) (w : World) (DeltaTime : ℚ)
    (hmode : s.Movement.CrouchActionType = EPlayerActionType.Hold)
    (hwant : s.bWantsToCrouch = false)
    (hblocked : IsBlockedInCrouchStance s w = true) :
    UpdateCrouch s w DeltaTime = s := by
  unfold UpdateCrouch
  simp [hmode, hwant, hblocked]

/-- In Hold mode a run of blocked ticks of a character that is standing up changes nothing. -/
theorem UpdateCrouchTicks_hold_blocked (ticks : List (ℚ × World)) (s : AFPCharacter)
    (hmode : s.Movement.CrouchActionType = EPlayerActionType.Hold)
    (hwant : s.bWantsToCrouch = false)
    (hblocked : BlockedAtEveryTick s ticks) :
    UpdateCrouchTicks s ticks = s := by
  induction ticks with
  | nil => rfl
  | cons t rest ih =>
    obtain ⟨hb, hrest⟩ := hblocked
    have hstep := UpdateCrouch_hold_blocked s t.2 t.1 hmode hwant hb
    simp only [UpdateCrouchTicks]
    rw [hstep] at hrest ⊢
    exact ih hrest

/-- A prefix of a run of blocked ticks is a run of blocked ticks. -/
theorem BlockedAtEveryTick_take (ticks : List (ℚ × World)) (s : AFPCharacter) (k : Nat)
    (hblocked : BlockedAtEveryTick s ticks) : BlockedAtEveryTick s (ticks.take k) := by
  induction ticks generalizing s k with
  | nil => simpa using hblocked
  | cons t rest ih =>
    cases k with
    | zero => simp [BlockedAtEveryTick]
    | succ k =>
      obtain ⟨hb, hrest⟩ := hblocked
      exact ⟨hb, ih _ k hrest⟩

/-- C1 (as amended): in Hold mode, for every state that is standing up (InTransition with
bWantsToCrouch false) and every run of UpdateCrouch ticks during which the blocked check reports
an obstruction at every tick, the phase after any number of those ticks is InTransition, hence
never Standing. -/
theorem hold_blocked_stand_up_never_standing (s : AFPCharacter) (ticks : List (ℚ × World))
    (k : Nat)
    (hmode : s.Movement.CrouchActionType = EPlayerActionType.Hold)
    (hphase : s.CrouchPhase = ECrouchPhase.InTransition)
    (hwant : s.bWantsToCrouch = false)
    (hblocked : BlockedAtEveryTick s ticks) :
    (UpdateCrouchTicks s (ticks.take k)).CrouchPhase = ECrouchPhase.InTransition ∧
    (UpdateCrouchTicks s (ticks.take k)).CrouchPhase ≠ ECrouchPhase.Standing := by
  have h := UpdateCrouchTicks_hold_blocked (ticks.take k) s hmode hwant
    (BlockedAtEveryTick_take ticks s k hblocked)
  rw [h, hphase]
  exact ⟨rfl, by decide⟩

/-- Witness of C1 (as amended): a Hold-mode character standing up under a fixed obstruction
stays InTransition after three blocked ticks. -/
theorem hold_blocked_stand_up_never_standing_witness :
    (UpdateCrouchTicks (standingUpCharacter EPlayerActionType.Hold)
      ([((1 : ℚ) / 10, blockedWorld), (1 / 10, blockedWorld), (1 / 10, blockedWorld)].take 3)
      ).CrouchPhase = ECrouchPhase.InTransition ∧
    (UpdateCrouchTicks (standingUpCharacter EPlayerActionType.Hold)
      ([((1 : ℚ) / 10, blockedWorld), (1 / 10, blockedWorld), (1 / 10, blockedWorld)].take 3)
      ).CrouchPhase ≠ ECrouchPhase.Standing :=
  hold_blocked_stand_up_never_standing (standingUpCharacter EPlayerActionType.Hold)
    [((1 : ℚ) / 10, blockedWorld), (1 / 10, blockedWorld), (1 / 10, blockedWorld)] 3
    rfl rfl rfl
    (by simp [BlockedAtEveryTick, UpdateCrouch, IsBlockedInCrouchStance, blockedWorld,
          standingUpCharacter, standingCharacter, defaultMovement])

/-- C1 (counterexample): in Toggle mode a character standing up (half-height 44 of 88) under an
obstruction that does not simulate physics reaches Standing after one blocked tick of 0.1 s at
transition speed 10. -/
theorem toggle_blocked_stand_up_reaches_standing :
    (standingUpCharacter EPlayerActionType.Toggle).CrouchPhase = ECrouchPhase.InTransition ∧
    (standingUpCharacter EPlayerActionType.Toggle).bWantsToCrouch = false ∧
    BlockedAtEveryTick (standingUpCharacter EPlayerActionType.Toggle) [(1 / 10, blockedWorld)] ∧
    (UpdateCrouchTicks (standingUpCharacter EPlayerActionType.Toggle)
      [(1 / 10, blockedWorld)]).CrouchPhase = ECrouchPhase.Standing := by
  refine ⟨rfl, rfl, ?_, ?_⟩
  · simp [BlockedAtEveryTick, IsBlockedInCrouchStance, blockedWorld]
  · simp [UpdateCrouchTicks, UpdateCrouch, standingUpCharacter, standingCharacter,
      defaultMovement, FMath.Lerp, FMath.IsNearlyEqual]

/-- In Toggle mode the blocked check gates the key press instead: pressing crouch while crouched
and blocked changes nothing. -/
theorem StartCrouch_toggle_blocked (s : AFPCharacter) (w : World)
    (hmode : s.Movement.CrouchActionType = EPlayerActionType.Toggle)
    (hwant : s.bWantsToCrouch = true)
    (hblocked : IsBlockedInCrouchStance s w = true) :
    StartCrouch s w = s := by
  simp [StartCrouch, hmode, hwant, hblocked]

/-! ## Crouch state machine: one step and convergence -/

/-- One interpolation step scales the distance to the target by the factor |1 - Alpha|. -/
theorem Lerp_distance (A B Alpha : ℚ) :
    |FMath.Lerp A B Alpha - B| = |1 - Alpha| * |A - B| := by
  have h : FMath.Lerp A B Alpha - B = (1 - Alpha) * (A - B) := by
    unfold FMath.Lerp
    ring
  rw [h, abs_mul]

/-- A tick outside InTransition changes nothing. -/
theorem UpdateCrouch_not_in_transition (s : AFPCharacter) (w : World) (DeltaTime : ℚ)
    (hphase : s.CrouchPhase ≠ ECrouchPhase.InTransition) :
    UpdateCrouch s w DeltaTime = s := by
  simp [UpdateCrouch, hphase]

/-- Crouching down, close enough: the tick commits to Crouching. -/
theorem UpdateCrouch_down_commit (s : AFPCharacter) (w : World) (DeltaTime : ℚ)
    (hphase : s.CrouchPhase = ECrouchPhase.InTransition)
    (hwant : s.bWantsToCrouch = true)
    (hnear : |FMath.Lerp s.CapsuleHalfHeight (s.OriginalCapsuleHalfHeight / 2)
        (StepFactor s DeltaTime) - s.OriginalCapsuleHalfHeight / 2| ≤ 2) :
    UpdateCrouch s w DeltaTime = CommitCrouching s := by
  unfold StepFactor at hnear
  simp [UpdateCrouch, CommitCrouching, hphase, hwant, FMath.IsNearlyEqual, hnear]

/-- Crouching down, still far: the tick writes the interpolated values and stays InTransition. -/
theorem UpdateCrouch_down_continue (s : AFPCharacter) (w : World) (DeltaTime : ℚ)
    (hphase : s.CrouchPhase = ECrouchPhase.InTransition)
    (hwant : s.bWantsToCrouch = true)
    (hfar : ¬ |FMath.Lerp s.CapsuleHalfHeight (s.OriginalCapsuleHalfHeight / 2)
        (StepFactor s DeltaTime) - s.OriginalCapsuleHalfHeight / 2| ≤ 2) :
    UpdateCrouch s w DeltaTime =
      { s with
        CameraRelativeLocation :=
          FMath.LerpVector s.CameraRelativeLocation ⟨0, 0, 30⟩ (StepFactor s DeltaTime)
        CapsuleHalfHeight :=
          FMath.Lerp s.CapsuleHalfHeight (s.OriginalCapsuleHalfHeight / 2) (StepFactor s DeltaTime)
        MaxWalkSpeed :=
          FMath.Lerp s.MaxWalkSpeed s.Movement.CrouchSpeed (StepFactor s DeltaTime) } := by
  unfold StepFactor at hfar ⊢
  simp [UpdateCrouch, hphase, hwant, FMath.IsNearlyEqual, hfar]

/-- Standing up on a path that is not blocked, close enough: the tick commits to Standing. -/
theorem UpdateCrouch_up_commit (s : AFPCharacter) (w : World) (DeltaTime : ℚ)
    (hphase : s.CrouchPhase = ECrouchPhase.InTransition)
    (hwant : s.bWantsToCrouch = false)
    (hfree : StandUpBlocked s w = false)
    (hnear : |FMath.Lerp s.CapsuleHalfHeight s.OriginalCapsuleHalfHeight
        (StepFactor s DeltaTime) - s.OriginalCapsuleHalfHeight| ≤ 2) :
    UpdateCrouch s w DeltaTime = CommitStanding s := by
  unfold StepFactor at hnear
  unfold StandUpBlocked at hfree
  simp [UpdateCrouch, CommitStanding, hphase, hwant, FMath.IsNearlyEqual, hnear, hfree]

/-- Standing up on a path that is not blocked, still far: the tick writes the interpolated values
and stays InTransition. -/
theorem UpdateCrouch_up_continue (s : AFPCharacter) (w : World) (DeltaTime : ℚ)
    (hphase : s.CrouchPhase = ECrouchPhase.InTransition)
    (hwant : s.bWantsToCrouch = false)
    (hfree : StandUpBlocked s w = false)
    (hfar : ¬ |FMath.Lerp s.CapsuleHalfHeight s.OriginalCapsuleHalfHeight
        (StepFactor s DeltaTime) - s.OriginalCapsuleHalfHeight| ≤ 2) :
    UpdateCrouch s w DeltaTime =
      { s with
        CameraRelativeLocation :=
          FMath.LerpVector s.CameraRelativeLocation s.OriginalCameraLocation (StepFactor s DeltaTime)
        CapsuleHalfHeight :=
          FMath.Lerp s.CapsuleHalfHeight s.OriginalCapsuleHalfHeight (StepFactor s DeltaTime)
        MaxWalkSpeed :=
          FMath.Lerp s.MaxWalkSpeed s.CurrentWalkSpeed (StepFactor s DeltaTime) } := by
  unfold StepFactor at hfar ⊢
  unfold StandUpBlocked at hfree
  simp [UpdateCrouch, hphase, hwant, FMath.IsNearlyEqual, hfar, hfree]

/-- Unfolding one tick of a constant run. -/
theorem UpdateCrouchTicks_replicate_succ (s : AFPCharacter) (t : ℚ × World) (n : Nat) :
    UpdateCrouchTicks s (List.replicate (n + 1) t) =
      UpdateCrouchTicks (UpdateCrouch s t.2 t.1) (List.replicate n t) := by
  simp [List.replicate_succ, UpdateCrouchTicks]

/-- A geometric sequence with ratio below one falls under the tolerance 2. -/
theorem geometric_reaches_margin (r d : ℚ) (hr0 : 0 ≤ r) (hr1 : r < 1) (hd : 0 ≤ d) :
    ∃ N : Nat, r ^ N * d ≤ 2 := by
  have hpos : (0 : ℚ) < 2 / (d + 1) := by positivity
  obtain ⟨N, hN⟩ := exists_pow_lt_of_lt_one hpos hr1
  refine ⟨N, ?_⟩
  have hd1 : (0 : ℚ) < d + 1 := by linarith
  have h1 : r ^ N * (d + 1) < 2 := by
    have := (lt_div_iff₀ hd1).1 hN
    exact this
  have h2 : 0 ≤ r ^ N := pow_nonneg hr0 N
  nlinarith

/-- Crouching down with a constant step factor between 0 and 2: once the distance to the target,
scaled by the N-th power of |1 - a|, is within the tolerance, some number of ticks commits. -/
theorem crouch_down_commits_within (w : World) (DeltaTime : ℚ) (N : Nat) :
    ∀ s : AFPCharacter,
      s.CrouchPhase = ECrouchPhase.InTransition →
      s.bWantsToCrouch = true →
      |1 - StepFactor s DeltaTime| ≤ 1 →
      |1 - StepFactor s DeltaTime| ^ N *
        |s.CapsuleHalfHeight - s.OriginalCapsuleHalfHeight / 2| ≤ 2 →
      ∃ n : Nat, UpdateCrouchTicks s (List.replicate n (DeltaTime, w)) = CommitCrouching s := by
  induction N with
  | zero =>
    intro s hphase hwant hr hN
    refine ⟨1, ?_⟩
    rw [UpdateCrouchTicks_replicate_succ]
    simp only [List.replicate_zero, UpdateCrouchTicks]
    apply UpdateCrouch_down_commit s w DeltaTime hphase hwant
    rw [Lerp_distance]
    simp only [pow_zero, one_mul] at hN
    have h0 : 0 ≤ |s.CapsuleHalfHeight - s.OriginalCapsuleHalfHeight / 2| := abs_nonneg _
    nlinarith [abs_nonneg (1 - StepFactor s DeltaTime)]
  | succ N ih =>
    intro s hphase hwant hr hN
    by_cases hnear : |FMath.Lerp s.CapsuleHalfHeight (s.OriginalCapsuleHalfHeight / 2)
        (StepFactor s DeltaTime) - s.OriginalCapsuleHalfHeight / 2| ≤ 2
    · refine ⟨1, ?_⟩
      rw [UpdateCrouchTicks_replicate_succ]
      simp only [List.replicate_zero, UpdateCrouchTicks]
      exact UpdateCrouch_down_commit s w DeltaTime hphase hwant hnear
    · have hstep := UpdateCrouch_down_continue s w DeltaTime hphase hwant hnear
      have hdist := Lerp_distance s.CapsuleHalfHeight (s.OriginalCapsuleHalfHeight / 2)
        (StepFactor s DeltaTime)
      obtain ⟨n, hn⟩ := ih (UpdateCrouch s w DeltaTime)
        (by rw [hstep]; exact hphase) (by rw [hstep]; exact hwant)
        (by rw [hstep]; exact hr)
        (by
          rw [hstep]
          show |1 - StepFactor s DeltaTime| ^ N *
            |FMath.Lerp s.CapsuleHalfHeight (s.OriginalCapsuleHalfHeight / 2)
              (StepFactor s DeltaTime) - s.OriginalCapsuleHalfHeight / 2| ≤ 2
          rw [hdist]
          calc |1 - StepFactor s DeltaTime| ^ N *
                (|1 - StepFactor s DeltaTime| *
                  |s.CapsuleHalfHeight - s.OriginalCapsuleHalfHeight / 2|)
              = |1 - StepFactor s DeltaTime| ^ (N + 1) *
                  |s.CapsuleHalfHeight - s.OriginalCapsuleHalfHeight / 2| := by ring
            _ ≤ 2 := hN)
      refine ⟨n + 1, ?_⟩
      rw [UpdateCrouchTicks_replicate_succ, hn, hstep]
      rfl

/-- Crouching down with a constant step factor strictly between 0 and 2 always commits: after
some number of ticks the state is the committed crouching state. -/
theorem crouch_down_commits (s : AFPCharacter) (w : World) (DeltaTime : ℚ)
    (hphase : s.CrouchPhase = ECrouchPhase.InTransition)
    (hwant : s.bWantsToCrouch = true)
    (ha0 : 0 < StepFactor s DeltaTime) (ha2 : StepFactor s DeltaTime < 2) :
    ∃ n : Nat, UpdateCrouchTicks s (List.replicate n (DeltaTime, w)) = CommitCrouching s := by
  have hr1 : |1 - StepFactor s DeltaTime| < 1 := by
    rw [abs_lt]
    constructor <;> linarith
  obtain ⟨N, hN⟩ := geometric_reaches_margin |1 - StepFactor s DeltaTime|
    |s.CapsuleHalfHeight - s.OriginalCapsuleHalfHeight / 2| (abs_nonneg _) hr1 (abs_nonneg _)
  exact crouch_down_commits_within w DeltaTime N s hphase hwant hr1.le hN

/-- Standing up with movement settings under which the path is never blocked, with a constant
step factor between 0 and 2: once the scaled distance to the target is within the tolerance, some number of ticks commits. -/
theorem stand_up_commits_within (w : World) (DeltaTime : ℚ) (N : Nat)
    (M : FFirstPersonMovementSettings)
    (hfree : ∀ s : AFPCharacter, s.Movement = M → StandUpBlocked s w = false) :
    ∀ s : AFPCharacter,
      s.Movement = M →
      s.CrouchPhase = ECrouchPhase.InTransition →
      s.bWantsToCrouch = false →
      |1 - StepFactor s DeltaTime| ≤ 1 →
      |1 - StepFactor s DeltaTime| ^ N *
        |s.CapsuleHalfHeight - s.OriginalCapsuleHalfHeight| ≤ 2 →
      ∃ n : Nat, UpdateCrouchTicks s (List.replicate n (DeltaTime, w)) = CommitStanding s := by
  induction N with
  | zero =>
    intro s hM hphase hwant hr hN
    refine ⟨1, ?_⟩
    rw [UpdateCrouchTicks_replicate_succ]
    simp only [List.replicate_zero, UpdateCrouchTicks]
    apply UpdateCrouch_up_commit s w DeltaTime hphase hwant (hfree s hM)
    rw [Lerp_distance]
    simp only [pow_zero, one_mul] at hN
    have h0 : 0 ≤ |s.CapsuleHalfHeight - s.OriginalCapsuleHalfHeight| := abs_nonneg _
    nlinarith [abs_nonneg (1 - StepFactor s DeltaTime)]
  | succ N ih =>
    intro s hM hphase hwant hr hN
    by_cases hnear : |FMath.Lerp s.CapsuleHalfHeight s.OriginalCapsuleHalfHeight
        (StepFactor s DeltaTime) - s.OriginalCapsuleHalfHeight| ≤ 2
    · refine ⟨1, ?_⟩
      rw [UpdateCrouchTicks_replicate_succ]
      simp only [List.replicate_zero, UpdateCrouchTicks]
      exact UpdateCrouch_up_commit s w DeltaTime hphase hwant (hfree s hM) hnear
    · have hstep := UpdateCrouch_up_continue s w DeltaTime hphase hwant (hfree s hM) hnear
      have hdist := Lerp_distance s.CapsuleHalfHeight s.OriginalCapsuleHalfHeight
        (StepFactor s DeltaTime)
      obtain ⟨n, hn⟩ := ih (UpdateCrouch s w DeltaTime)
        (by rw [hstep]; exact hM) (by rw [hstep]; exact hphase) (by rw [hstep]; exact hwant)
        (by rw [hstep]; exact hr)
        (by
          rw [hstep]
          show |1 - StepFactor s DeltaTime| ^ N *
            |FMath.Lerp s.CapsuleHalfHeight s.OriginalCapsuleHalfHeight
              (StepFactor s DeltaTime) - s.OriginalCapsuleHalfHeight| ≤ 2
          rw [hdist]
          calc |1 - StepFactor s DeltaTime| ^ N *
                (|1 - StepFactor s DeltaTime| *
                  |s.CapsuleHalfHeight - s.OriginalCapsuleHalfHeight|)
              = |1 - StepFactor s DeltaTime| ^ (N + 1) *
                  |s.CapsuleHalfHeight - s.OriginalCapsuleHalfHeight| := by ring
            _ ≤ 2 := hN)
      refine ⟨n + 1, ?_⟩
      rw [UpdateCrouchTicks_replicate_succ, hn, hstep]
      rfl

/-- Standing up on a path that is never blocked, with a constant step factor strictly between 0
and 2, always commits: after some number of ticks the state is the committed standing state. -/
theorem stand_up_commits (s : AFPCharacter) (w : World) (DeltaTime : ℚ)
    (hfree : ∀ s1 : AFPCharacter, s1.Movement = s.Movement → StandUpBlocked s1 w = false)
    (hphase : s.CrouchPhase = ECrouchPhase.InTransition)
    (hwant : s.bWantsToCrouch = false)
    (ha0 : 0 < StepFactor s DeltaTime) (ha2 : StepFactor s DeltaTime < 2) :
    ∃ n : Nat, UpdateCrouchTicks s (List.replicate n (DeltaTime, w)) = CommitStanding s := by
  have hr1 : |1 - StepFactor s DeltaTime| < 1 := by
    rw [abs_lt]
    constructor <;> linarith
  obtain ⟨N, hN⟩ := geometric_reaches_margin |1 - StepFactor s DeltaTime|
    |s.CapsuleHalfHeight - s.OriginalCapsuleHalfHeight| (abs_nonneg _) hr1 (abs_nonneg _)
  exact stand_up_commits_within w DeltaTime N s.Movement hfree s rfl hphase hwant hr1.le hN

/-- Ticks outside InTransition change nothing. -/
theorem UpdateCrouchTicks_not_in_transition (ticks : List (ℚ × World)) (s : AFPCharacter)
    (hphase : s.CrouchPhase ≠ ECrouchPhase.InTransition) :
    UpdateCrouchTicks s ticks = s := by
  induction ticks with
  | nil => rfl
  | cons t rest ih =>
    simp only [UpdateCrouchTicks]
    rw [UpdateCrouch_not_in_transition s t.2 t.1 hphase]
    exact ih

/-- Crouching down, after any ticks whatever their frame times: the character is still in
transition or is in the committed crouching state. -/
theorem crouch_down_any_ticks (ticks : List (ℚ × World)) :
    ∀ s : AFPCharacter,
      s.CrouchPhase = ECrouchPhase.InTransition →
      s.bWantsToCrouch = true →
      (UpdateCrouchTicks s ticks).CrouchPhase = ECrouchPhase.InTransition ∨
      UpdateCrouchTicks s ticks = CommitCrouching s := by
  induction ticks with
  | nil => intro s hphase _; exact Or.inl hphase
  | cons t rest ih =>
    intro s hphase hwant
    simp only [UpdateCrouchTicks]
    by_cases hnear : |FMath.Lerp s.CapsuleHalfHeight (s.OriginalCapsuleHalfHeight / 2)
        (StepFactor s t.1) - s.OriginalCapsuleHalfHeight / 2| ≤ 2
    · right
      rw [UpdateCrouch_down_commit s t.2 t.1 hphase hwant hnear]
      exact UpdateCrouchTicks_not_in_transition rest _ (by simp [CommitCrouching])
    · have hstep := UpdateCrouch_down_continue s t.2 t.1 hphase hwant hnear
      rcases ih (UpdateCrouch s t.2 t.1) (by rw [hstep]; exact hphase)
        (by rw [hstep]; exact hwant) with h | h
      · exact Or.inl h
      · right
        rw [h, hstep]
        rfl

/-- Standing up, after any ticks whatever their frame times and worlds: the character is still
in transition or is in the committed standing state. -/
theorem stand_up_any_ticks (ticks : List (ℚ × World)) :
    ∀ s : AFPCharacter,
      s.CrouchPhase = ECrouchPhase.InTransition →
      s.bWantsToCrouch = false →
      (UpdateCrouchTicks s ticks).CrouchPhase = ECrouchPhase.InTransition ∨
      UpdateCrouchTicks s ticks = CommitStanding s := by
  induction ticks with
  | nil => intro s hphase _; exact Or.inl hphase
  | cons t rest ih =>
    intro s hphase hwant
    simp only [UpdateCrouchTicks]
    by_cases hfree : StandUpBlocked s t.2 = false
    · by_cases hnear : |FMath.Lerp s.CapsuleHalfHeight s.OriginalCapsuleHalfHeight
          (StepFactor s t.1) - s.OriginalCapsuleHalfHeight| ≤ 2
      · right
        rw [UpdateCrouch_up_commit s t.2 t.1 hphase hwant hfree hnear]
        exact UpdateCrouchTicks_not_in_transition rest _ (by simp [CommitStanding])
      · have hstep := UpdateCrouch_up_continue s t.2 t.1 hphase hwant hfree hnear
        rcases ih (UpdateCrouch s t.2 t.1) (by rw [hstep]; exact hphase)
          (by rw [hstep]; exact hwant) with h | h
        · exact Or.inl h
        · right
          rw [h, hstep]
          rfl
    · have hblocked : StandUpBlocked s t.2 = true := by simpa using hfree
      have hstep : UpdateCrouch s t.2 t.1 = s := by
        unfold StandUpBlocked at hblocked
        simp [UpdateCrouch, hphase, hwant, hblocked]
      rw [hstep]
      exact ih s hphase hwant

/-- In Toggle mode with nothing above, a press from a coherent standing or crouching state starts
the opposite transition. -/
theorem StartCrouch_toggle_free (s : AFPCharacter) (w : World)
    (hmode : s.Movement.CrouchActionType = EPlayerActionType.Toggle)
    (hfree : IsBlockedInCrouchStance s w = false) :
    StartCrouch s w =
      { s with bWantsToCrouch := !s.bWantsToCrouch, CrouchPhase := ECrouchPhase.InTransition } := by
  cases hw : s.bWantsToCrouch <;> simp [StartCrouch, hmode, hfree, hw]

/-! ## Toggle mode: two presses -/

/-- Toggle mode, press while not wanting to crouch: once the ticks have left InTransition the
state is the committed crouching state. -/
theorem press_down_committed (s : AFPCharacter) (w : World) (ticks : List (ℚ × World))
    (hmode : s.Movement.CrouchActionType = EPlayerActionType.Toggle)
    (hfree : IsBlockedInCrouchStance s w = false)
    (hwant : s.bWantsToCrouch = false)
    (hdone : (PressThenTicks s w ticks).CrouchPhase ≠ ECrouchPhase.InTransition) :
    PressThenTicks s w ticks =
      CommitCrouching { s with bWantsToCrouch := true, CrouchPhase := ECrouchPhase.InTransition } := by
  unfold PressThenTicks at hdone ⊢
  rw [StartCrouch_toggle_free s w hmode hfree, hwant] at hdone ⊢
  rcases crouch_down_any_ticks ticks
    { s with bWantsToCrouch := !false, CrouchPhase := ECrouchPhase.InTransition } rfl rfl with h | h
  · exact absurd h hdone
  · exact h

/-- Toggle mode, press while wanting to crouch and not blocked: once the ticks have left
InTransition the state is the committed standing state. -/
theorem press_up_committed (s : AFPCharacter) (w : World) (ticks : List (ℚ × World))
    (hmode : s.Movement.CrouchActionType = EPlayerActionType.Toggle)
    (hfree : IsBlockedInCrouchStance s w = false)
    (hwant : s.bWantsToCrouch = true)
    (hdone : (PressThenTicks s w ticks).CrouchPhase ≠ ECrouchPhase.InTransition) :
    PressThenTicks s w ticks =
      CommitStanding { s with bWantsToCrouch := false, CrouchPhase := ECrouchPhase.InTransition } := by
  unfold PressThenTicks at hdone ⊢
  rw [StartCrouch_toggle_free s w hmode hfree, hwant] at hdone ⊢
  rcases stand_up_any_ticks ticks
    { s with bWantsToCrouch := !true, CrouchPhase := ECrouchPhase.InTransition } rfl rfl with h | h
  · exact absurd h hdone
  · exact h

/-- Toggle mode, press while not wanting to crouch, constant step factor strictly between 0 and
2: some number of ticks leaves InTransition. -/
theorem press_down_commits (s : AFPCharacter) (w : World) (DeltaTime : ℚ)
    (hmode : s.Movement.CrouchActionType = EPlayerActionType.Toggle)
    (hfree : IsBlockedInCrouchStance s w = false)
    (hwant : s.bWantsToCrouch = false)
    (ha0 : 0 < StepFactor s DeltaTime) (ha2 : StepFactor s DeltaTime < 2) :
    ∃ n : Nat, (PressThenTicks s w (List.replicate n (DeltaTime, w))).CrouchPhase
      ≠ ECrouchPhase.InTransition := by
  obtain ⟨n, hn⟩ := crouch_down_commits
    { s with bWantsToCrouch := true, CrouchPhase := ECrouchPhase.InTransition } w DeltaTime
    rfl rfl ha0 ha2
  refine ⟨n, ?_⟩
  unfold PressThenTicks
  rw [StartCrouch_toggle_free s w hmode hfree, hwant]
  simp only [Bool.not_false]
  rw [hn]
  simp [CommitCrouching]

/-- Toggle mode, press while wanting to crouch and not blocked, constant step factor strictly
between 0 and 2: some number of ticks leaves InTransition. -/
theorem press_up_commits (s : AFPCharacter) (w : World) (DeltaTime : ℚ)
    (hmode : s.Movement.CrouchActionType = EPlayerActionType.Toggle)
    (hfree : IsBlockedInCrouchStance s w = false)
    (hwant : s.bWantsToCrouch = true)
    (ha0 : 0 < StepFactor s DeltaTime) (ha2 : StepFactor s DeltaTime < 2) :
    ∃ n : Nat, (PressThenTicks s w (List.replicate n (DeltaTime, w))).CrouchPhase
      ≠ ECrouchPhase.InTransition := by
  obtain ⟨n, hn⟩ := stand_up_commits
    { s with bWantsToCrouch := false, CrouchPhase := ECrouchPhase.InTransition } w DeltaTime
    (by intro s1 h1; simp [StandUpBlocked, h1, hmode]) rfl rfl ha0 ha2
  refine ⟨n, ?_⟩
  unfold PressThenTicks
  rw [StartCrouch_toggle_free s w hmode hfree, hwant]
  simp only [Bool.not_true]
  rw [hn]
  simp [CommitStanding]

/-- Two presses from a coherent standing state, each followed by ticks that leave InTransition:
crouching after the first, the committed standing state after the second. -/
theorem two_presses_from_standing (s : AFPCharacter) (w : World)
    (ticks1 ticks2 : List (ℚ × World))
    (hmode : s.Movement.CrouchActionType = EPlayerActionType.Toggle)
    (hfree : ∀ s1 : AFPCharacter, IsBlockedInCrouchStance s1 w = false)
    (hphase : s.CrouchPhase = ECrouchPhase.Standing)
    (hwant : s.bWantsToCrouch = false)
    (hdone1 : (PressThenTicks s w ticks1).CrouchPhase ≠ ECrouchPhase.InTransition)
    (hdone2 : (PressThenTicks (PressThenTicks s w ticks1) w ticks2).CrouchPhase
      ≠ ECrouchPhase.InTransition) :
    (PressThenTicks s w ticks1).CrouchPhase = ECrouchPhase.Crouching ∧
    PressThenTicks (PressThenTicks s w ticks1) w ticks2 = CommitStanding s := by
  have h1 := press_down_committed s w ticks1 hmode (hfree s) hwant hdone1
  have h2 := press_up_committed (PressThenTicks s w ticks1) w ticks2
    (by rw [h1]; exact hmode) (hfree _) (by rw [h1]; rfl) hdone2
  refine ⟨by rw [h1]; rfl, ?_⟩
  rw [h2, h1]
  cases s
  simp only at hphase hwant
  subst hphase hwant
  rfl

/-- Two presses from a coherent crouching state, each followed by ticks that leave InTransition:
standing after the first, the committed crouching state after the second. -/
theorem two_presses_from_crouching (s : AFPCharacter) (w : World)
    (ticks1 ticks2 : List (ℚ × World))
    (hmode : s.Movement.CrouchActionType = EPlayerActionType.Toggle)
    (hfree : ∀ s1 : AFPCharacter, IsBlockedInCrouchStance s1 w = false)
    (hphase : s.CrouchPhase = ECrouchPhase.Crouching)
    (hwant : s.bWantsToCrouch = true)
    (hdone1 : (PressThenTicks s w ticks1).CrouchPhase ≠ ECrouchPhase.InTransition)
    (hdone2 : (PressThenTicks (PressThenTicks s w ticks1) w ticks2).CrouchPhase
      ≠ ECrouchPhase.InTransition) :
    (PressThenTicks s w ticks1).CrouchPhase = ECrouchPhase.Standing ∧
    PressThenTicks (PressThenTicks s w ticks1) w ticks2 =
      CommitCrouching s := by
  have h1 := press_up_committed s w ticks1 hmode (hfree s) hwant hdone1
  have h2 := press_down_committed (PressThenTicks s w ticks1) w ticks2
    (by rw [h1]; exact hmode) (hfree _) (by rw [h1]; rfl) hdone2
  refine ⟨by rw [h1]; rfl, ?_⟩
  rw [h2, h1]
  cases s
  simp only at hphase hwant
  subst hphase hwant
  rfl

/-- C3: in Toggle mode with no obstruction (the blocked check is always false), two crouch
presses, each followed by UpdateCrouch ticks until the transition commits, return the phase to
its original terminal value. From Standing: Crouching after the first press, Standing again after
the second, with capsule half-height and camera offset at their original values. From Crouching:
Standing after the first, Crouching again after the second, with half-height at half the original
and the camera at (0,0,30). This holds for all ticks, whatever their frame times, that leave
InTransition; and with a constant step factor strictly between 0 and 2 such ticks exist. -/
theorem toggle_twice_returns_to_terminal_phase (s : AFPCharacter) (w : World) (DeltaTime : ℚ)
    (hmode : s.Movement.CrouchActionType = EPlayerActionType.Toggle)
    (hfree : ∀ s1 : AFPCharacter, IsBlockedInCrouchStance s1 w = false) :
    (s.CrouchPhase = ECrouchPhase.Standing → s.bWantsToCrouch = false →
      (∀ ticks1 ticks2 : List (ℚ × World),
        (PressThenTicks s w ticks1).CrouchPhase ≠ ECrouchPhase.InTransition →
        (PressThenTicks (PressThenTicks s w ticks1) w ticks2).CrouchPhase
          ≠ ECrouchPhase.InTransition →
        (PressThenTicks s w ticks1).CrouchPhase = ECrouchPhase.Crouching ∧
        (PressThenTicks (PressThenTicks s w ticks1) w ticks2).CrouchPhase
          = ECrouchPhase.Standing ∧
        (PressThenTicks (PressThenTicks s w ticks1) w ticks2).CapsuleHalfHeight
          = s.OriginalCapsuleHalfHeight ∧
        (PressThenTicks (PressThenTicks s w ticks1) w ticks2).CameraRelativeLocation
          = s.OriginalCameraLocation ∧
        PressThenTicks (PressThenTicks s w ticks1) w ticks2 = CommitStanding s) ∧
      (0 < StepFactor s DeltaTime → StepFactor s DeltaTime < 2 →
        ∃ n m : Nat,
          (PressThenTicks s w (List.replicate n (DeltaTime, w))).CrouchPhase
            ≠ ECrouchPhase.InTransition ∧
          (PressThenTicks (PressThenTicks s w (List.replicate n (DeltaTime, w))) w
            (List.replicate m (DeltaTime, w))).CrouchPhase ≠ ECrouchPhase.InTransition)) ∧
    (s.CrouchPhase = ECrouchPhase.Crouching → s.bWantsToCrouch = true →
      (∀ ticks1 ticks2 : List (ℚ × World),
        (PressThenTicks s w ticks1).CrouchPhase ≠ ECrouchPhase.InTransition →
        (PressThenTicks (PressThenTicks s w ticks1) w ticks2).CrouchPhase
          ≠ ECrouchPhase.InTransition →
        (PressThenTicks s w ticks1).CrouchPhase = ECrouchPhase.Standing ∧
        (PressThenTicks (PressThenTicks s w ticks1) w ticks2).CrouchPhase
          = ECrouchPhase.Crouching ∧
        (PressThenTicks (PressThenTicks s w ticks1) w ticks2).CapsuleHalfHeight
          = s.OriginalCapsuleHalfHeight / 2 ∧
        (PressThenTicks (PressThenTicks s w ticks1) w ticks2).CameraRelativeLocation
          = ⟨0, 0, 30⟩ ∧
        PressThenTicks (PressThenTicks s w ticks1) w ticks2 = CommitCrouching s) ∧
      (0 < StepFactor s DeltaTime → StepFactor s DeltaTime < 2 →
        ∃ n m : Nat,
          (PressThenTicks s w (List.replicate n (DeltaTime, w))).CrouchPhase
            ≠ ECrouchPhase.InTransition ∧
          (PressThenTicks (PressThenTicks s w (List.replicate n (DeltaTime, w))) w
            (List.replicate m (DeltaTime, w))).CrouchPhase ≠ ECrouchPhase.InTransition)) := by
  refine ⟨fun hphase hwant => ⟨?_, ?_⟩, fun hphase hwant => ⟨?_, ?_⟩⟩
  · intro ticks1 ticks2 hdone1 hdone2
    obtain ⟨h1, h2⟩ := two_presses_from_standing s w ticks1 ticks2 hmode hfree hphase hwant
      hdone1 hdone2
    refine ⟨h1, ?_, ?_, ?_, h2⟩ <;> rw [h2] <;> rfl
  · intro ha0 ha2
    obtain ⟨n, hn⟩ := press_down_commits s w DeltaTime hmode (hfree s) hwant ha0 ha2
    have h1 := press_down_committed s w _ hmode (hfree s) hwant hn
    obtain ⟨m, hm⟩ := press_up_commits (PressThenTicks s w (List.replicate n (DeltaTime, w)))
      w DeltaTime (by rw [h1]; exact hmode) (hfree _) (by rw [h1]; rfl)
      (by rw [h1]; exact ha0) (by rw [h1]; exact ha2)
    exact ⟨n, m, hn, hm⟩
  · intro ticks1 ticks2 hdone1 hdone2
    obtain ⟨h1, h2⟩ := two_presses_from_crouching s w ticks1 ticks2 hmode hfree hphase hwant
      hdone1 hdone2
    refine ⟨h1, ?_, ?_, ?_, h2⟩ <;> rw [h2] <;> rfl
  · intro ha0 ha2
    obtain ⟨n, hn⟩ := press_up_commits s w DeltaTime hmode (hfree s) hwant ha0 ha2
    have h1 := press_up_committed s w _ hmode (hfree s) hwant hn
    obtain ⟨m, hm⟩ := press_down_commits (PressThenTicks s w (List.replicate n (DeltaTime, w)))
      w DeltaTime (by rw [h1]; exact hmode) (hfree _) (by rw [h1]; rfl)
      (by rw [h1]; exact ha0) (by rw [h1]; exact ha2)
    exact ⟨n, m, hn, hm⟩

/-- Witness of C3: the default standing character in Toggle mode under a free sky, with ticks
of 0.1 s at transition speed 10 (step factor 1): one tick after each press commits, and the second
commit is Standing with half-height 88 and the camera at (0,0,70). -/
theorem toggle_twice_returns_to_terminal_phase_witness :
    (PressThenTicks (standingCharacter EPlayerActionType.Toggle) freeWorld
      [(1 / 10, freeWorld)]).CrouchPhase = ECrouchPhase.Crouching ∧
    (PressThenTicks (PressThenTicks (standingCharacter EPlayerActionType.Toggle) freeWorld
      [(1 / 10, freeWorld)]) freeWorld [(1 / 10, freeWorld)]).CrouchPhase
        = ECrouchPhase.Standing ∧
    (PressThenTicks (PressThenTicks (standingCharacter EPlayerActionType.Toggle) freeWorld
      [(1 / 10, freeWorld)]) freeWorld [(1 / 10, freeWorld)]).CapsuleHalfHeight = 88 ∧
    (PressThenTicks (PressThenTicks (standingCharacter EPlayerActionType.Toggle) freeWorld
      [(1 / 10, freeWorld)]) freeWorld [(1 / 10, freeWorld)]).CameraRelativeLocation
        = ⟨0, 0, 70⟩ := by
  have hfree : ∀ s1 : AFPCharacter, IsBlockedInCrouchStance s1 freeWorld = false := by
    intro s1
    simp [IsBlockedInCrouchStance, freeWorld]
  have h := ((toggle_twice_returns_to_terminal_phase
    (standingCharacter EPlayerActionType.Toggle) freeWorld (1 / 10) rfl hfree).1 rfl rfl).1
    [(1 / 10, freeWorld)] [(1 / 10, freeWorld)]
    (by
      simp [PressThenTicks, UpdateCrouchTicks, UpdateCrouch, StartCrouch, standingCharacter,
        defaultMovement, FMath.Lerp, FMath.IsNearlyEqual])
    (by
      simp [PressThenTicks, UpdateCrouchTicks, UpdateCrouch, StartCrouch, standingCharacter,
        defaultMovement, FMath.Lerp, FMath.IsNearlyEqual, IsBlockedInCrouchStance, freeWorld])
  exact ⟨h.1, h.2.1, h.2.2.1, h.2.2.2.1⟩

/-! ## Footstep lookup -/

/-- The loop skips entries that are null or registered for another material. -/
theorem GetFootstepSoundLoop_skip (s : AFPCharacter) (Surface : Option UPhysicalMaterial)
    (RandRange : ℤ → ℤ → ℤ) (pre rest : List (Option UFirstPersonFootstepData))
    (hpre : ∀ X : UFirstPersonFootstepData, some X ∈ pre → X.GetPhysicalMaterial ≠ Surface) :
    GetFootstepSoundLoop s Surface RandRange (pre ++ rest) =
      GetFootstepSoundLoop s Surface RandRange rest := by
  induction pre with
  | nil => rfl
  | cons e pre ih =>
    have hrest : ∀ X : UFirstPersonFootstepData, some X ∈ pre →
        X.GetPhysicalMaterial ≠ Surface := fun X hX => hpre X (List.mem_cons_of_mem _ hX)
    cases e with
    | none => simpa [GetFootstepSoundLoop] using ih hrest
    | some X =>
      have hX : X.GetPhysicalMaterial ≠ Surface := hpre X (List.mem_cons_self _ _)
      simpa [GetFootstepSoundLoop, hX] using ih hrest

/-- With no matching entry the lookup returns null, logs once and leaves the state alone. -/
theorem GetFootstepSound_no_match (s : AFPCharacter) (Surface : Option UPhysicalMaterial)
    (RandRange : ℤ → ℤ → ℤ)
    (hnone : ∀ X : UFirstPersonFootstepData, some X ∈ s.FootstepSettings.Mappings →
      X.GetPhysicalMaterial ≠ Surface) :
    GetFootstepSound s Surface RandRange = ⟨s, [Event.Log "No footstep sound"], Except.ok none⟩ := by
  unfold GetFootstepSound
  have h := GetFootstepSoundLoop_skip s Surface RandRange s.FootstepSettings.Mappings [] hnone
  rw [List.append_nil] at h
  rw [h]
  rfl

/-- The lookup never records anything but log entries, and never changes the crouch phase. -/
theorem GetFootstepSoundLoop_events (s : AFPCharacter) (Surface : Option UPhysicalMaterial)
    (RandRange : ℤ → ℤ → ℤ) (Mappings : List (Option UFirstPersonFootstepData)) :
    FootstepCalls (GetFootstepSoundLoop s Surface RandRange Mappings).events = 0 ∧
    (GetFootstepSoundLoop s Surface RandRange Mappings).events.filter Event.isCameraShake = [] := by
  induction Mappings with
  | nil => simp [GetFootstepSoundLoop, FootstepCalls, Event.isCameraShake]
  | cons e rest ih =>
    cases e with
    | none => simpa [GetFootstepSoundLoop] using ih
    | some X =>
      by_cases hX : X.GetPhysicalMaterial = Surface
      · simp only [GetFootstepSoundLoop, hX, if_true]
        split <;> simp [FootstepCalls]
      · simpa [GetFootstepSoundLoop, hX] using ih

/-- The lookup at the first matching entry: state written, and sound returned or fault. -/
theorem GetFootstepSound_at_first_match (s : AFPCharacter) (Surface : Option UPhysicalMaterial)
    (RandRange : ℤ → ℤ → ℤ) (pre post : List (Option UFirstPersonFootstepData))
    (M : UFirstPersonFootstepData)
    (hlist : s.FootstepSettings.Mappings = pre ++ some M :: post)
    (hpre : ∀ X : UFirstPersonFootstepData, some X ∈ pre → X.GetPhysicalMaterial ≠ Surface)
    (hM : M.GetPhysicalMaterial = Surface) :
    (GetFootstepSound s Surface RandRange).state.FootstepSettings.CurrentStride =
      (if s.CrouchPhase ≠ ECrouchPhase.Standing then M.GetFootstepStride_Crouch
       else if s.bWantsToRun then M.GetFootstepStride_Run
       else M.GetFootstepStride_Walk) ∧
    (GetFootstepSound s Surface RandRange).state.CurrentFootstepMapping = some M ∧
    (GetFootstepSound s Surface RandRange).state =
      { s with
        CurrentFootstepMapping := some M
        FootstepSettings := { s.FootstepSettings with CurrentStride := SelectStride s M } } ∧
    (GetFootstepSound s Surface RandRange).ret =
      (match TArray.get M.GetFootstepSounds
          (RandRange 0 ((M.GetFootstepSounds.length : ℤ) - 1)) with
       | some Sound => Except.ok Sound
       | none => Except.error Fault.IndexOutOfRange) := by
  unfold GetFootstepSound
  rw [hlist, GetFootstepSoundLoop_skip s Surface RandRange pre _ hpre]
  simp only [GetFootstepSoundLoop, hM, if_true, FootstepSoundIndex]
  split <;> simp_all [SelectStride]

/-- C9: for every ordered mapping list and surface, GetFootstepSound selects the first non-null
mapping in list order whose physical material is identical to the surface: when the list is
some entries none of which matches, then a matching mapping M, then any further entries, the
lookup records M as current mapping and sets CurrentStride to the crouch stride of M if the phase
is not Standing, otherwise to its run stride if bWantsToRun, otherwise to its walk stride, and the
sound it returns is the one drawn from the sound set of M. The entries after M do not occur in
the result: later matching entries have no effect. -/
theorem GetFootstepSound_first_match (s : AFPCharacter) (Surface : Option UPhysicalMaterial)
    (RandRange : ℤ → ℤ → ℤ) (pre post : List (Option UFirstPersonFootstepData))
    (M : UFirstPersonFootstepData)
    (hlist : s.FootstepSettings.Mappings = pre ++ some M :: post)
    (hpre : ∀ X : UFirstPersonFootstepData, some X ∈ pre → X.GetPhysicalMaterial ≠ Surface)
    (hM : M.GetPhysicalMaterial = Surface) :
    (GetFootstepSound s Surface RandRange).state.FootstepSettings.CurrentStride =
      (if s.CrouchPhase ≠ ECrouchPhase.Standing then M.GetFootstepStride_Crouch
       else if s.bWantsToRun then M.GetFootstepStride_Run
       else M.GetFootstepStride_Walk) ∧
    (GetFootstepSound s Surface RandRange).state.CurrentFootstepMapping = some M ∧
    (GetFootstepSound s Surface RandRange).state =
      { s with
        CurrentFootstepMapping := some M
        FootstepSettings := { s.FootstepSettings with CurrentStride := SelectStride s M } } ∧
    (GetFootstepSound s Surface RandRange).ret =
      (match TArray.get M.GetFootstepSounds
          (RandRange 0 ((M.GetFootstepSounds.length : ℤ) - 1)) with
       | some Sound => Except.ok Sound
       | none => Except.error Fault.IndexOutOfRange) :=
  GetFootstepSound_at_first_match s Surface RandRange pre post M hlist hpre hM

/-- Witness of C9: with the list grass (material 1), gravel (material 2), later (material 1) and
surface material 2 while running, the lookup takes gravel and its run stride 150. -/
theorem GetFootstepSound_first_match_witness :
    (GetFootstepSound
      (Run (characterWithMappings [some grassMapping, none, some gravelMapping, some laterMapping]))
      (some 2) (fun Min _ => Min)).state.FootstepSettings.CurrentStride = 150 ∧
    (GetFootstepSound
      (Run (characterWithMappings [some grassMapping, none, some gravelMapping, some laterMapping]))
      (some 2) (fun Min _ => Min)).state.CurrentFootstepMapping = some gravelMapping := by
  have h := GetFootstepSound_first_match
    (Run (characterWithMappings [some grassMapping, none, some gravelMapping, some laterMapping]))
    (some 2) (fun Min _ => Min) [some grassMapping, none] [some laterMapping] gravelMapping
    rfl (by intro X hX; simp at hX; subst hX; simp [grassMapping]) rfl
  exact ⟨h.1, h.2.1⟩

/-! ## Footstep event -/

/-- C5 (as amended): for every footstep event whose floor probe returns a blocking hit on a
physical material that no entry of the mappings matches, the event returns normally, produces
zero sound-play calls, leaves CurrentStride unchanged, and logs once from the lookup plus once
more when the hit has an actor: two log entries with an actor, one without. -/
theorem PlayFootstepSound_no_mapping (s : AFPCharacter) (w : World)
    (hhit : w.FindFloor.bBlockingHit = true)
    (hnone : ∀ X : UFirstPersonFootstepData, some X ∈ s.FootstepSettings.Mappings →
      X.GetPhysicalMaterial ≠ w.FindFloor.HitResult.PhysMaterial) :
    (PlayFootstepSound s w).ret = Except.ok () ∧
    ((PlayFootstepSound s w).events.filter Event.isPlaySound).length = 0 ∧
    ((PlayFootstepSound s w).events.filter Event.isLog).length =
      (if w.FindFloor.HitResult.Actor.isSome then 2 else 1) ∧
    (PlayFootstepSound s w).state.FootstepSettings.CurrentStride =
      s.FootstepSettings.CurrentStride := by
  have hlookup := GetFootstepSound_no_match { s with FloorResult := w.FindFloor }
    w.FindFloor.HitResult.PhysMaterial (w.RandRange 0) hnone
  unfold PlayFootstepSound
  simp only [hhit, if_true, hlookup]
  cases hactor : w.FindFloor.HitResult.Actor <;>
    simp [IsValid, Event.isPlaySound, Event.isLog]

/-- Witness of C5 (as amended): only a gravel mapping (material 2) is registered and the floor
is material 1 of actor Floor: no sound, two log entries, stride still 160. -/
theorem PlayFootstepSound_no_mapping_witness :
    (PlayFootstepSound (characterWithMappings [some gravelMapping]) blockedWorld).ret
      = Except.ok () ∧
    ((PlayFootstepSound (characterWithMappings [some gravelMapping]) blockedWorld).events.filter
      Event.isPlaySound).length = 0 ∧
    ((PlayFootstepSound (characterWithMappings [some gravelMapping]) blockedWorld).events.filter
      Event.isLog).length = 2 ∧
    (PlayFootstepSound (characterWithMappings [some gravelMapping])
      blockedWorld).state.FootstepSettings.CurrentStride = 160 :=
  PlayFootstepSound_no_mapping (characterWithMappings [some gravelMapping]) blockedWorld rfl
    (by intro X hX; simp [characterWithMappings] at hX; subst hX; simp [gravelMapping, blockedWorld])

/-- C5 (counterexample): no mapping is registered for the hit material 1 and the hit floor belongs
to actor Floor: the footstep event produces two log entries, not one. -/
theorem PlayFootstepSound_no_mapping_logs_twice :
    blockedWorld.FindFloor.bBlockingHit = true ∧
    (∀ X : UFirstPersonFootstepData,
      some X ∈ (characterWithMappings [some gravelMapping]).FootstepSettings.Mappings →
      X.GetPhysicalMaterial ≠ blockedWorld.FindFloor.HitResult.PhysMaterial) ∧
    (PlayFootstepSound (characterWithMappings [some gravelMapping]) blockedWorld).events =
      [Event.PlayFootstepSound, Event.Log "No footstep sound",
       Event.Log "No physical material found for Floor"] ∧
    ((PlayFootstepSound (characterWithMappings [some gravelMapping]) blockedWorld).events.filter
      Event.isLog).length = 2 := by
  refine ⟨rfl, ?_, ?_, ?_⟩
  · intro X hX
    simp [characterWithMappings] at hX
    subst hX
    simp [gravelMapping, blockedWorld]
  · simp [PlayFootstepSound, GetFootstepSound, GetFootstepSoundLoop, characterWithMappings,
      gravelMapping, blockedWorld, IsValid]
  · simp [PlayFootstepSound, GetFootstepSound, GetFootstepSoundLoop, characterWithMappings,
      gravelMapping, blockedWorld, IsValid, Event.isLog]

/-- When the matched sound set is not empty and the engine draw respects its range, the index is
within 0..Num-1 and the returned sound is an element of the sound set. -/
theorem GetFootstepSound_index_in_range (s : AFPCharacter) (Surface : Option UPhysicalMaterial)
    (RandRange : ℤ → ℤ → ℤ) (pre post : List (Option UFirstPersonFootstepData))
    (M : UFirstPersonFootstepData)
    (hlist : s.FootstepSettings.Mappings = pre ++ some M :: post)
    (hpre : ∀ X : UFirstPersonFootstepData, some X ∈ pre → X.GetPhysicalMaterial ≠ Surface)
    (hM : M.GetPhysicalMaterial = Surface)
    (hrange : ∀ Min Max : ℤ, Min ≤ Max → Min ≤ RandRange Min Max ∧ RandRange Min Max ≤ Max)
    (hsounds : M.GetFootstepSounds ≠ []) :
    0 ≤ FootstepSoundIndex M RandRange ∧
    FootstepSoundIndex M RandRange ≤ (M.GetFootstepSounds.length : ℤ) - 1 ∧
    ∃ Sound, Sound ∈ M.GetFootstepSounds ∧
      (GetFootstepSound s Surface RandRange).ret = Except.ok Sound := by
  have hlen : 0 < M.GetFootstepSounds.length := List.length_pos.2 hsounds
  have hle : (0 : ℤ) ≤ (M.GetFootstepSounds.length : ℤ) - 1 := by omega
  obtain ⟨h0, h1⟩ := hrange 0 ((M.GetFootstepSounds.length : ℤ) - 1) hle
  have hlt : (RandRange 0 ((M.GetFootstepSounds.length : ℤ) - 1)).toNat
      < M.GetFootstepSounds.length := by omega
  refine ⟨h0, h1, M.GetFootstepSounds.get ⟨_, hlt⟩, List.get_mem _ _ _, ?_⟩
  rw [(GetFootstepSound_at_first_match s Surface RandRange pre post M hlist hpre hM).2.2.2]
  simp [TArray.get, h0, List.getElem?_eq_getElem hlt]

/-- C7 (failing input): the only mapping matches the surface and its sound set is empty. Whatever
the engine draws, the lookup indexes the empty array: it stops with an out-of-range access. With
the engine draw 0 for the empty range, the index 0 is not below Num = 0. -/
theorem GetFootstepSound_empty_sounds_out_of_range :
    ∀ RandRange : ℤ → ℤ → ℤ,
      (GetFootstepSound (characterWithMappings [some silentMapping]) (some 1) RandRange).ret
        = Except.error Fault.IndexOutOfRange ∧
      TArray.get silentMapping.GetFootstepSounds (FootstepSoundIndex silentMapping RandRange)
        = none ∧
      ((silentMapping.GetFootstepSounds.length : ℤ) - 1 = -1) := by
  intro RandRange
  refine ⟨?_, ?_, ?_⟩
  · simp [GetFootstepSound, GetFootstepSoundLoop, characterWithMappings, silentMapping,
      TArray.get]
  · simp [silentMapping, TArray.get]
  · simp [silentMapping]

/-- A footstep event records exactly one invocation marker and no camera-shake call. -/
theorem PlayFootstepSound_events (s : AFPCharacter) (w : World) :
    FootstepCalls (PlayFootstepSound s w).events = 1 ∧
    (PlayFootstepSound s w).events.filter Event.isCameraShake = [] := by
  have e1 := GetFootstepSoundLoop_events { s with FloorResult := w.FindFloor }
    w.FindFloor.HitResult.PhysMaterial (w.RandRange 0) s.FootstepSettings.Mappings
  unfold PlayFootstepSound
  by_cases hhit : w.FindFloor.bBlockingHit = true
  · simp only [hhit, if_true]
    unfold GetFootstepSound
    split
    · simpa [FootstepCalls, Event.isCameraShake] using e1
    · split
      · rename_i Checked hret hvalid
        have e2 := GetFootstepSoundLoop_events
          (GetFootstepSoundLoop { s with FloorResult := w.FindFloor }
            w.FindFloor.HitResult.PhysMaterial (w.RandRange 0)
            s.FootstepSettings.Mappings).state
          w.FindFloor.HitResult.PhysMaterial (w.RandRange 1)
          (GetFootstepSoundLoop { s with FloorResult := w.FindFloor }
            w.FindFloor.HitResult.PhysMaterial (w.RandRange 0)
            s.FootstepSettings.Mappings).state.FootstepSettings.Mappings
        split
        · simp_all [FootstepCalls, Event.isCameraShake, List.count_append]
        · simp_all [FootstepCalls, Event.isCameraShake, List.count_append]
      · cases w.FindFloor.HitResult.Actor <;>
          simp_all [FootstepCalls, Event.isCameraShake, List.count_append]
  · simp [hhit, FootstepCalls, Event.isCameraShake]

/-- A MoveForward call with a controller, footsteps enabled, moving on the ground, whose
accumulated travel exceeds the current stride: PlayFootstepSound is invoked exactly once, and
when the call returns TravelDistance is 0. -/
theorem MoveForward_footstep_resets (s : AFPCharacter) (w : World) (AxisValue : ℚ)
    (hctrl : s.Controller.isSome = true)
    (hen : s.FootstepSettings.bEnableFootsteps = true)
    (hmove : w.VelocitySize > 0)
    (hground : w.IsMovingOnGround = true)
    (hexceeds : s.TravelDistance + w.Size (FVector.sub w.GetActorLocation s.LastLocation)
      > s.FootstepSettings.CurrentStride) :
    FootstepCalls (MoveForward s w AxisValue).events = 1 ∧
    ((MoveForward s w AxisValue).ret = Except.ok () →
      (MoveForward s w AxisValue).state.TravelDistance = 0) := by
  obtain ⟨c, hc⟩ := Option.isSome_iff_exists.1 hctrl
  have hacc : AccumulateTravel s w =
      { s with
        TravelDistance := s.TravelDistance + w.Size (FVector.sub w.GetActorLocation s.LastLocation)
        LastLocation := w.GetActorLocation } := by
    simp [AccumulateTravel, hmove, hground]
  have hev := (PlayFootstepSound_events (AccumulateTravel s w) w).1
  unfold MoveForward
  simp only [hc, hen, if_true, hground, Bool.true_and]
  have hgt : decide ((AccumulateTravel s w).TravelDistance >
      (AccumulateTravel s w).FootstepSettings.CurrentStride) = true := by
    rw [hacc]
    simpa using hexceeds
  simp only [hgt, if_true]
  split
  · refine ⟨?_, ?_⟩
    · simpa [FootstepCalls] using hev
    · intro h
      cases h
  · refine ⟨?_, fun _ => rfl⟩
    simpa [FootstepCalls] using hev

/-- A MoveForward call invokes PlayFootstepSound only when the character moves on the ground and
the accumulated travel exceeds the current stride. -/
theorem MoveForward_footstep_only_past_stride (s : AFPCharacter) (w : World) (AxisValue : ℚ)
    (hcall : FootstepCalls (MoveForward s w AxisValue).events ≠ 0) :
    w.IsMovingOnGround = true ∧
    (AccumulateTravel s w).TravelDistance > (AccumulateTravel s w).FootstepSettings.CurrentStride := by
  unfold MoveForward at hcall
  cases hc : s.Controller with
  | none => simp [hc, FootstepCalls] at hcall
  | some c =>
    simp only [hc] at hcall
    by_cases hen : s.FootstepSettings.bEnableFootsteps = true
    · simp only [hen, if_true] at hcall
      by_cases hcond : (w.IsMovingOnGround && decide ((AccumulateTravel s w).TravelDistance >
          (AccumulateTravel s w).FootstepSettings.CurrentStride)) = true
      · simpa using hcond
      · simp [hcond, FootstepCalls] at hcall
    · simp [hen, FootstepCalls] at hcall

/-- C2 (failing input): stride 160, the character has walked 170 units on the ground, and the
mapping registered for the floor material has an empty sound set. MoveForward invokes
PlayFootstepSound once, the lookup indexes the empty sound array and the call stops there:
TravelDistance is left at 170, not reset to 0. -/
theorem MoveForward_empty_sounds_no_reset :
    ∀ RandRange : Nat → ℤ → ℤ → ℤ,
      (MoveForward (characterWithMappings [some silentMapping])
        { walkingWorld with RandRange := RandRange } 1).ret
          = Except.error Fault.IndexOutOfRange ∧
      (MoveForward (characterWithMappings [some silentMapping])
        { walkingWorld with RandRange := RandRange } 1).state.TravelDistance = 170 ∧
      FootstepCalls (MoveForward (characterWithMappings [some silentMapping])
        { walkingWorld with RandRange := RandRange } 1).events = 1 := by
  intro RandRange
  simp [MoveForward, AccumulateTravel, PlayFootstepSound, GetFootstepSound,
    GetFootstepSoundLoop, characterWithMappings, standingCharacter, silentMapping, walkingWorld,
    blockedWorld, TArray.get, FVector.sub, FVector.zero, FootstepCalls]
  norm_num
  rfl

/-! ## Landing, jumping and the camera-shake driver -/

/-- C4 (as amended): for every state with CrouchPhase = Standing and a non-null PlayerController,
every world and every landing hit, Landed issues exactly one camera-shake call, with the jump
shake class at scale 3, and invokes PlayFootstepSound exactly once if bEnableFootsteps is true
and zero times if it is false, whatever the velocity and TravelDistance. -/
theorem Landed_standing_with_controller (s : AFPCharacter) (w : World) (Hit : FHitResult)
    (hphase : s.CrouchPhase = ECrouchPhase.Standing)
    (hpc : s.PlayerController.isSome = true) :
    (Landed s w Hit).events.filter Event.isCameraShake =
      [Event.ClientStartCameraShake s.CameraShakes.JumpShake 3] ∧
    FootstepCalls (Landed s w Hit).events =
      (if s.FootstepSettings.bEnableFootsteps then 1 else 0) := by
  obtain ⟨c, hc⟩ := Option.isSome_iff_exists.1 hpc
  obtain ⟨hcalls, hshake⟩ := PlayFootstepSound_events s w
  unfold Landed
  simp only [hphase, if_true, hc]
  by_cases hen : s.FootstepSettings.bEnableFootsteps = true
  · simp only [hen, if_true]
    refine ⟨?_, ?_⟩
    · simp [List.filter_cons, Event.isCameraShake, hshake]
    · simpa [FootstepCalls] using hcalls
  · simp [hen, FootstepCalls, Event.isCameraShake]

/-- Witness of C4 (as amended): the default standing character lands with its controller set and
footsteps enabled: one shake of class 4 (the jump shake) at scale 3 and one footstep call. -/
theorem Landed_standing_with_controller_witness :
    (Landed (standingCharacter EPlayerActionType.Hold) walkingWorld floorHit).events.filter
      Event.isCameraShake = [Event.ClientStartCameraShake 4 3] ∧
    FootstepCalls (Landed (standingCharacter EPlayerActionType.Hold) walkingWorld floorHit).events
      = 1 :=
  Landed_standing_with_controller (standingCharacter EPlayerActionType.Hold) walkingWorld floorHit
    rfl rfl

/-- C4 (counterexample): a standing character whose PlayerController is null lands: no
camera-shake call is issued (the call stops at the null controller), although the phase is
Standing. -/
theorem Landed_standing_null_controller_no_shake :
    uncontrolledCharacter.CrouchPhase = ECrouchPhase.Standing ∧
    (Landed uncontrolledCharacter walkingWorld floorHit).events.filter Event.isCameraShake = [] ∧
    ((Landed uncontrolledCharacter walkingWorld floorHit).events.filter
      Event.isCameraShake).length ≠ 1 := by
  refine ⟨rfl, ?_, ?_⟩ <;>
    simp [Landed, uncontrolledCharacter, standingCharacter, Event.isCameraShake]

/-- With a null PlayerController the per-tick camera-shake driver issues no call. -/
theorem UpdateCameraShake_null_controller (s : AFPCharacter) (w : World)
    (hpc : s.PlayerController = none) : UpdateCameraShake s w = [] := by
  simp [UpdateCameraShake, hpc]

/-- C6 (failing input): a standing character whose PlayerController is null, footsteps enabled.
Jump and Landed both reach the camera-shake call on the null controller and stop there with a
null dereference; Landed never gets to its footstep: PlayFootstepSound is invoked zero times. -/
theorem Jump_Landed_null_controller_fault :
    uncontrolledCharacter.PlayerController = none ∧
    uncontrolledCharacter.FootstepSettings.bEnableFootsteps = true ∧
    (Jump uncontrolledCharacter).ret = Except.error Fault.NullDereference ∧
    (Landed uncontrolledCharacter walkingWorld floorHit).ret
      = Except.error Fault.NullDereference ∧
    FootstepCalls (Landed uncontrolledCharacter walkingWorld floorHit).events = 0 := by
  refine ⟨rfl, rfl, ?_, ?_, ?_⟩ <;>
    simp [Jump, Landed, uncontrolledCharacter, standingCharacter, FootstepCalls]

/-! ## Walking speed -/

/-- C8: for every state with CrouchPhase = Standing, after one Tick both CurrentWalkSpeed and
MaxWalkSpeed equal Movement.RunSpeed if bWantsToRun and Movement.WalkSpeed otherwise; and when
CrouchPhase is not Standing, UpdateWalkingSpeed changes neither value (it changes nothing). -/
theorem Tick_walking_speed (s : AFPCharacter) (w : World) (DeltaTime : ℚ) :
    (s.CrouchPhase = ECrouchPhase.Standing →
      (Tick s w DeltaTime).1.CurrentWalkSpeed =
        (if s.bWantsToRun then s.Movement.RunSpeed else s.Movement.WalkSpeed) ∧
      (Tick s w DeltaTime).1.MaxWalkSpeed =
        (if s.bWantsToRun then s.Movement.RunSpeed else s.Movement.WalkSpeed)) ∧
    (s.CrouchPhase ≠ ECrouchPhase.Standing →
      (UpdateWalkingSpeed s).CurrentWalkSpeed = s.CurrentWalkSpeed ∧
      (UpdateWalkingSpeed s).MaxWalkSpeed = s.MaxWalkSpeed ∧
      UpdateWalkingSpeed s = s) := by
  constructor
  · intro hphase
    have hne : s.CrouchPhase ≠ ECrouchPhase.InTransition := by rw [hphase]; decide
    simp only [Tick, UpdateCrouch_not_in_transition s w DeltaTime hne]
    simp [UpdateWalkingSpeed, hphase]
  · intro hphase
    simp [UpdateWalkingSpeed, hphase]

/-- Witness of C8: WalkSpeed 300, RunSpeed 500, run key held, standing: after one tick both
speeds are 500; and a character in transition keeps its speeds under UpdateWalkingSpeed. -/
theorem Tick_walking_speed_witness :
    ((Tick (Run (standingCharacter EPlayerActionType.Hold)) walkingWorld (1 / 60)).1.CurrentWalkSpeed
        = 500 ∧
      (Tick (Run (standingCharacter EPlayerActionType.Hold)) walkingWorld (1 / 60)).1.MaxWalkSpeed
        = 500) ∧
    ((UpdateWalkingSpeed (standingUpCharacter EPlayerActionType.Hold)).CurrentWalkSpeed = 300 ∧
      (UpdateWalkingSpeed (standingUpCharacter EPlayerActionType.Hold)).MaxWalkSpeed = 150 ∧
      UpdateWalkingSpeed (standingUpCharacter EPlayerActionType.Hold)
        = standingUpCharacter EPlayerActionType.Hold) :=
  ⟨(Tick_walking_speed (Run (standingCharacter EPlayerActionType.Hold)) walkingWorld (1 / 60)).1 rfl,
   (Tick_walking_speed (standingUpCharacter EPlayerActionType.Hold) walkingWorld (1 / 60)).2
     (by decide)⟩

/-! ## Input binding bootstrap -/

/-- The action map holds its six entries in insertion order. -/
theorem DefaultActionMap_eq :
    DefaultActionMap =
      [(FKey.SpaceBar, "Jump"), (FKey.F, "Interact"), (FKey.Escape, "Escape"),
       (FKey.LeftShift, "Run"), (FKey.LeftControl, "Crouch"), (FKey.C, "Crouch")] := by
  simp [DefaultActionMap, TMap.Add]

/-- The axis map holds its six entries in insertion order. -/
theorem DefaultAxisMap_eq :
    DefaultAxisMap =
      [(FKey.MouseX, "Turn"), (FKey.MouseY, "LookUp"), (FKey.W, "MoveForward"),
       (FKey.S, "MoveForward"), (FKey.A, "MoveRight"), (FKey.D, "MoveRight")] := by
  simp [DefaultAxisMap, TMap.Add]

/-- The operations of the bootstrap, case by case. -/
theorem SetupInputBindings_ops_eq (s : AFPCharacter) (Input : UInputSettings) :
    (SetupInputBindings s Input).2 =
      (if (Input.GetActionMappings.length > 0 ∨ Input.GetAxisMappings.length > 0) ∧
          s.bUseCustomKeyMappings = true then []
       else
        Input.GetActionMappings.map InputOp.RemoveActionMapping ++
        Input.GetAxisMappings.map InputOp.RemoveAxisMapping ++
        ([(FKey.SpaceBar, "Jump"), (FKey.F, "Interact"), (FKey.Escape, "Escape"),
          (FKey.LeftShift, "Run"), (FKey.LeftControl, "Crouch"), (FKey.C, "Crouch")].map
          (fun e => InputOp.AddActionMapping
            ⟨e.2, if s.bUseCustomKeyMappings then FKey.NAME_KeyboardCategory else e.1⟩)) ++
        ([(FKey.MouseX, "Turn", (1 : ℚ)), (FKey.MouseY, "LookUp", -1),
          (FKey.W, "MoveForward", 1), (FKey.S, "MoveForward", -1),
          (FKey.A, "MoveRight", -1), (FKey.D, "MoveRight", 1)].map
          (fun e => InputOp.AddAxisMapping
            ⟨e.2.1, if s.bUseCustomKeyMappings then FKey.NAME_KeyboardCategory else e.1,
              e.2.2⟩)) ++
        [InputOp.SaveKeyMappings, InputOp.ForceRebuildKeymaps]) := by
  unfold SetupInputBindings
  by_cases hex : Input.GetActionMappings.length > 0 ∨ Input.GetAxisMappings.length > 0
  · cases hflag : s.bUseCustomKeyMappings <;>
      simp [hex, hflag, ResetToDefaultInputBindings, ResetInputBindings, DefaultActionMap_eq,
        DefaultAxisMap_eq, SetActionMapping, SetAxisMapping]
  · cases hflag : s.bUseCustomKeyMappings <;>
      simp [hex, hflag, ResetToDefaultInputBindings, ResetInputBindings, DefaultActionMap_eq,
        DefaultAxisMap_eq, SetActionMapping, SetAxisMapping]

/-- C10 (as amended): SetupInputBindings as a function from the existing mappings and the
custom-mappings flag to the operations performed. If any action or axis mapping exists and the
flag is true it performs no operation. Otherwise it removes every pre-existing mapping and adds
the fixed default names: actions Jump, Interact, Escape, Run, Crouch, Crouch and axes Turn(+1),
LookUp(-1), MoveForward(+1), MoveForward(-1), MoveRight(-1), MoveRight(+1), then saves and
rebuilds. The keys are the defaults (SpaceBar, F, Escape, LeftShift, LeftControl, C; MouseX,
MouseY, W, S, A, D) when the flag is false; when the flag is true (which here means that no
mapping existed) every key is the placeholder NAME_KeyboardCategory. -/
theorem SetupInputBindings_operations (s : AFPCharacter) (Input : UInputSettings) :
    (SetupInputBindings s Input).2 =
      (if (Input.GetActionMappings.length > 0 ∨ Input.GetAxisMappings.length > 0) ∧
          s.bUseCustomKeyMappings = true then []
       else
        Input.GetActionMappings.map InputOp.RemoveActionMapping ++
        Input.GetAxisMappings.map InputOp.RemoveAxisMapping ++
        ([(FKey.SpaceBar, "Jump"), (FKey.F, "Interact"), (FKey.Escape, "Escape"),
          (FKey.LeftShift, "Run"), (FKey.LeftControl, "Crouch"), (FKey.C, "Crouch")].map
          (fun e => InputOp.AddActionMapping
            ⟨e.2, if s.bUseCustomKeyMappings then FKey.NAME_KeyboardCategory else e.1⟩)) ++
        ([(FKey.MouseX, "Turn", (1 : ℚ)), (FKey.MouseY, "LookUp", -1),
          (FKey.W, "MoveForward", 1), (FKey.S, "MoveForward", -1),
          (FKey.A, "MoveRight", -1), (FKey.D, "MoveRight", 1)].map
          (fun e => InputOp.AddAxisMapping
            ⟨e.2.1, if s.bUseCustomKeyMappings then FKey.NAME_KeyboardCategory else e.1,
              e.2.2⟩)) ++
        [InputOp.SaveKeyMappings, InputOp.ForceRebuildKeymaps]) :=
  SetupInputBindings_ops_eq s Input

/-- C10 (counterexample): no mapping exists and the custom-mappings flag is true. The bootstrap
adds the default names, but on the placeholder key: Jump is added on NAME_KeyboardCategory, and
Jump on SpaceBar is not among the operations. -/
theorem SetupInputBindings_custom_flag_placeholder_keys :
    customKeysCharacter.bUseCustomKeyMappings = true ∧
    emptyInput.GetActionMappings = [] ∧ emptyInput.GetAxisMappings = [] ∧
    InputOp.AddActionMapping ⟨"Jump", FKey.NAME_KeyboardCategory⟩
      ∈ (SetupInputBindings customKeysCharacter emptyInput).2 ∧
    InputOp.AddActionMapping ⟨"Jump", FKey.SpaceBar⟩
      ∉ (SetupInputBindings customKeysCharacter emptyInput).2 ∧
    InputOp.AddAxisMapping ⟨"MoveForward", FKey.W, 1⟩
      ∉ (SetupInputBindings customKeysCharacter emptyInput).2 := by
  refine ⟨rfl, rfl, rfl, ?_, ?_, ?_⟩ <;>
    simp [SetupInputBindings_ops_eq, customKeysCharacter, emptyInput]

/-- Existing mappings and the flag true: nothing is done. Existing mappings and the flag false:
they are removed and the default keys installed. -/
theorem SetupInputBindings_existing_mappings :
    (SetupInputBindings customKeysCharacter customInput).2 = [] ∧
    (SetupInputBindings (standingCharacter EPlayerActionType.Hold) customInput).2 =
      [InputOp.RemoveActionMapping ⟨"Fire", FKey.Other 7⟩,
       InputOp.RemoveAxisMapping ⟨"Zoom", FKey.Other 8, 1⟩,
       InputOp.AddActionMapping ⟨"Jump", FKey.SpaceBar⟩,
       InputOp.AddActionMapping ⟨"Interact", FKey.F⟩,
       InputOp.AddActionMapping ⟨"Escape", FKey.Escape⟩,
       InputOp.AddActionMapping ⟨"Run", FKey.LeftShift⟩,
       InputOp.AddActionMapping ⟨"Crouch", FKey.LeftControl⟩,
       InputOp.AddActionMapping ⟨"Crouch", FKey.C⟩,
       InputOp.AddAxisMapping ⟨"Turn", FKey.MouseX, 1⟩,
       InputOp.AddAxisMapping ⟨"LookUp", FKey.MouseY, -1⟩,
       InputOp.AddAxisMapping ⟨"MoveForward", FKey.W, 1⟩,
       InputOp.AddAxisMapping ⟨"MoveForward", FKey.S, -1⟩,
       InputOp.AddAxisMapping ⟨"MoveRight", FKey.A, -1⟩,
       InputOp.AddAxisMapping ⟨"MoveRight", FKey.D, 1⟩,
       InputOp.SaveKeyMappings, InputOp.ForceRebuildKeymaps] := by
  constructor <;>
    simp [SetupInputBindings_ops_eq, customKeysCharacter, customInput, standingCharacter]

/-! ## The crouch update, case by case -/

/-- C11: for every UpdateCrouch call with CrouchPhase = InTransition on a path that is not
blocked (crouching down, or standing up without Hold mode and a positive blocked check), with
target half-height T (half the original when bWantsToCrouch, the original otherwise) and
N = Lerp(current half-height, T, StandToCrouchTransitionSpeed * DeltaTime): if |N - T| ≤ 2 the
phase commits to the terminal state and half-height, camera offset and max walk speed are
exactly the target values; otherwise the phase stays InTransition and the three are the
interpolated values. When CrouchPhase is not InTransition, UpdateCrouch changes nothing. -/
theorem UpdateCrouch_cases (s : AFPCharacter) (w : World) (DeltaTime : ℚ) :
    (s.CrouchPhase = ECrouchPhase.InTransition →
      (s.bWantsToCrouch = true ∨
        ¬ (s.Movement.CrouchActionType = EPlayerActionType.Hold ∧
            IsBlockedInCrouchStance s w = true)) →
      (|FMath.Lerp s.CapsuleHalfHeight (TargetHalfHeight s)
          (s.Movement.StandToCrouchTransitionSpeed * DeltaTime) - TargetHalfHeight s| ≤ 2 →
        (UpdateCrouch s w DeltaTime).CrouchPhase =
          (if s.bWantsToCrouch then ECrouchPhase.Crouching else ECrouchPhase.Standing) ∧
        (UpdateCrouch s w DeltaTime).CapsuleHalfHeight =
          (if s.bWantsToCrouch then s.OriginalCapsuleHalfHeight / 2
           else s.OriginalCapsuleHalfHeight) ∧
        (UpdateCrouch s w DeltaTime).CameraRelativeLocation =
          (if s.bWantsToCrouch then ⟨0, 0, 30⟩ else s.OriginalCameraLocation) ∧
        (UpdateCrouch s w DeltaTime).MaxWalkSpeed =
          (if s.bWantsToCrouch then s.Movement.CrouchSpeed else s.CurrentWalkSpeed)) ∧
      (¬ |FMath.Lerp s.CapsuleHalfHeight (TargetHalfHeight s)
          (s.Movement.StandToCrouchTransitionSpeed * DeltaTime) - TargetHalfHeight s| ≤ 2 →
        (UpdateCrouch s w DeltaTime).CrouchPhase = ECrouchPhase.InTransition ∧
        (UpdateCrouch s w DeltaTime).CapsuleHalfHeight =
          FMath.Lerp s.CapsuleHalfHeight (TargetHalfHeight s)
            (s.Movement.StandToCrouchTransitionSpeed * DeltaTime) ∧
        (UpdateCrouch s w DeltaTime).CameraRelativeLocation =
          FMath.LerpVector s.CameraRelativeLocation
            (if s.bWantsToCrouch then ⟨0, 0, 30⟩ else s.OriginalCameraLocation)
            (s.Movement.StandToCrouchTransitionSpeed * DeltaTime) ∧
        (UpdateCrouch s w DeltaTime).MaxWalkSpeed =
          FMath.Lerp s.MaxWalkSpeed
            (if s.bWantsToCrouch then s.Movement.CrouchSpeed else s.CurrentWalkSpeed)
            (s.Movement.StandToCrouchTransitionSpeed * DeltaTime))) ∧
    (s.CrouchPhase ≠ ECrouchPhase.InTransition → UpdateCrouch s w DeltaTime = s) := by
  refine ⟨?_, UpdateCrouch_not_in_transition s w DeltaTime⟩
  intro hphase hpath
  cases hwant : s.bWantsToCrouch with
  | true =>
    simp only [TargetHalfHeight, hwant, if_true]
    constructor
    · intro hnear
      rw [UpdateCrouch_down_commit s w DeltaTime hphase hwant hnear]
      simp [CommitCrouching]
    · intro hfar
      rw [UpdateCrouch_down_continue s w DeltaTime hphase hwant hfar]
      simp [hphase, StepFactor]
  | false =>
    have hfree : StandUpBlocked s w = false := by
      rcases hpath with h | h
      · rw [hwant] at h
        cases h
      · unfold StandUpBlocked
        by_cases hm : s.Movement.CrouchActionType = EPlayerActionType.Hold
        · have hb : IsBlockedInCrouchStance s w ≠ true := fun hb => h ⟨hm, hb⟩
          simp [hm, hb]
        · simp [hm]
    simp only [TargetHalfHeight, hwant]
    constructor
    · intro hnear
      rw [UpdateCrouch_up_commit s w DeltaTime hphase hwant hfree (by simpa using hnear)]
      simp [CommitStanding]
    · intro hfar
      rw [UpdateCrouch_up_continue s w DeltaTime hphase hwant hfree (by simpa using hfar)]
      simp [hphase, StepFactor]

/-- Witness of C11: the Toggle-mode character standing up from half-height 44 towards 88. With a
tick of 0.1 s (step factor 1) the interpolated height is 88 and the tick commits to Standing with
half-height 88, camera (0,0,70) and max walk speed 300. With a tick of 0.01 s (step factor 0.1)
the interpolated height is 48.4, the phase stays InTransition and the half-height is 48.4. -/
theorem UpdateCrouch_cases_witness :
    ((UpdateCrouch (standingUpCharacter EPlayerActionType.Toggle) blockedWorld (1 / 10)).CrouchPhase
        = ECrouchPhase.Standing ∧
      (UpdateCrouch (standingUpCharacter EPlayerActionType.Toggle) blockedWorld
        (1 / 10)).CapsuleHalfHeight = 88 ∧
      (UpdateCrouch (standingUpCharacter EPlayerActionType.Toggle) blockedWorld
        (1 / 10)).CameraRelativeLocation = ⟨0, 0, 70⟩ ∧
      (UpdateCrouch (standingUpCharacter EPlayerActionType.Toggle) blockedWorld
        (1 / 10)).MaxWalkSpeed = 300) ∧
    ((UpdateCrouch (standingUpCharacter EPlayerActionType.Toggle) blockedWorld
        (1 / 100)).CrouchPhase = ECrouchPhase.InTransition ∧
      (UpdateCrouch (standingUpCharacter EPlayerActionType.Toggle) blockedWorld
        (1 / 100)).CapsuleHalfHeight = FMath.Lerp 44 88 (10 * (1 / 100))) := by
  have hpath : (standingUpCharacter EPlayerActionType.Toggle).bWantsToCrouch = true ∨
      ¬ ((standingUpCharacter EPlayerActionType.Toggle).Movement.CrouchActionType
            = EPlayerActionType.Hold ∧
          IsBlockedInCrouchStance (standingUpCharacter EPlayerActionType.Toggle) blockedWorld
            = true) :=
    Or.inr (fun h => by cases h.1)
  have h1 := ((UpdateCrouch_cases (standingUpCharacter EPlayerActionType.Toggle) blockedWorld
    (1 / 10)).1 rfl hpath).1
    (by
      simp [TargetHalfHeight, standingUpCharacter, standingCharacter, defaultMovement, FMath.Lerp])
  have h2 := ((UpdateCrouch_cases (standingUpCharacter EPlayerActionType.Toggle) blockedWorld
    (1 / 100)).1 rfl hpath).2
    (by
      simp [TargetHalfHeight, standingUpCharacter, standingCharacter, defaultMovement, FMath.Lerp]
      norm_num [lt_abs])
  exact ⟨⟨h1.1, h1.2.1, h1.2.2.1, h1.2.2.2⟩, ⟨h2.1, h2.2.1⟩⟩

/-! ## The crouch-down transition completes -/

/-- C13: with floats as exact rationals and the capsule half-height a plain field, for every
state with CrouchPhase = InTransition and bWantsToCrouch = true and every constant step factor
a = StandToCrouchTransitionSpeed * DeltaTime with 0 < a < 2: an UpdateCrouch call that does not
commit (the phase is still InTransition after it) multiplies the distance between the half-height
and OriginalCapsuleHalfHeight / 2 by exactly |1 - a|; and there is an n such that after n
UpdateCrouch calls CrouchPhase = Crouching with half-height OriginalCapsuleHalfHeight / 2,
camera offset (0,0,30) and max walk speed CrouchSpeed. -/
theorem crouch_down_always_completes (s : AFPCharacter) (w : World) (DeltaTime : ℚ)
    (hphase : s.CrouchPhase = ECrouchPhase.InTransition)
    (hwant : s.bWantsToCrouch = true)
    (ha0 : 0 < s.Movement.StandToCrouchTransitionSpeed * DeltaTime)
    (ha2 : s.Movement.StandToCrouchTransitionSpeed * DeltaTime < 2) :
    ((UpdateCrouch s w DeltaTime).CrouchPhase = ECrouchPhase.InTransition →
      |(UpdateCrouch s w DeltaTime).CapsuleHalfHeight - s.OriginalCapsuleHalfHeight / 2| =
        |1 - s.Movement.StandToCrouchTransitionSpeed * DeltaTime| *
          |s.CapsuleHalfHeight - s.OriginalCapsuleHalfHeight / 2|) ∧
    ∃ n : Nat,
      (UpdateCrouchTicks s (List.replicate n (DeltaTime, w))).CrouchPhase
        = ECrouchPhase.Crouching ∧
      (UpdateCrouchTicks s (List.replicate n (DeltaTime, w))).CapsuleHalfHeight
        = s.OriginalCapsuleHalfHeight / 2 ∧
      (UpdateCrouchTicks s (List.replicate n (DeltaTime, w))).CameraRelativeLocation
        = ⟨0, 0, 30⟩ ∧
      (UpdateCrouchTicks s (List.replicate n (DeltaTime, w))).MaxWalkSpeed
        = s.Movement.CrouchSpeed := by
  constructor
  · intro hstay
    by_cases hnear : |FMath.Lerp s.CapsuleHalfHeight (s.OriginalCapsuleHalfHeight / 2)
        (StepFactor s DeltaTime) - s.OriginalCapsuleHalfHeight / 2| ≤ 2
    · rw [UpdateCrouch_down_commit s w DeltaTime hphase hwant hnear] at hstay
      simp [CommitCrouching] at hstay
    · rw [UpdateCrouch_down_continue s w DeltaTime hphase hwant hnear]
      exact Lerp_distance _ _ _
  · obtain ⟨n, hn⟩ := crouch_down_commits s w DeltaTime hphase hwant ha0 ha2
    refine ⟨n, ?_, ?_, ?_, ?_⟩ <;> rw [hn] <;> rfl

/-- Witness of C13: the default character crouching down from half-height 88 towards 44 with
ticks of 0.05 s at transition speed 10 (step factor 0.5). -/
theorem crouch_down_always_completes_witness :
    ((UpdateCrouch (crouchingDownCharacter EPlayerActionType.Hold) freeWorld (1 / 20)).CrouchPhase
        = ECrouchPhase.InTransition →
      |(UpdateCrouch (crouchingDownCharacter EPlayerActionType.Hold) freeWorld
          (1 / 20)).CapsuleHalfHeight - 88 / 2| = |1 - 10 * (1 / 20)| * |88 - 88 / 2|) ∧
    ∃ n : Nat,
      (UpdateCrouchTicks (crouchingDownCharacter EPlayerActionType.Hold)
        (List.replicate n (1 / 20, freeWorld))).CrouchPhase = ECrouchPhase.Crouching ∧
      (UpdateCrouchTicks (crouchingDownCharacter EPlayerActionType.Hold)
        (List.replicate n (1 / 20, freeWorld))).CapsuleHalfHeight = 88 / 2 ∧
      (UpdateCrouchTicks (crouchingDownCharacter EPlayerActionType.Hold)
        (List.replicate n (1 / 20, freeWorld))).CameraRelativeLocation = ⟨0, 0, 30⟩ ∧
      (UpdateCrouchTicks (crouchingDownCharacter EPlayerActionType.Hold)
        (List.replicate n (1 / 20, freeWorld))).MaxWalkSpeed = 150 :=
  crouch_down_always_completes (crouchingDownCharacter EPlayerActionType.Hold) freeWorld (1 / 20)
    rfl rfl
    (by simp [crouchingDownCharacter, standingCharacter, defaultMovement])
    (by
      simp [crouchingDownCharacter, standingCharacter, defaultMovement]
      norm_num)

/-! ## Intent and phase stay coherent -/

/-- The footstep lookup leaves phase and crouch intent alone. -/
theorem GetFootstepSoundLoop_crouch_frame (s : AFPCharacter) (Surface : Option UPhysicalMaterial)
    (RandRange : ℤ → ℤ → ℤ) (Mappings : List (Option UFirstPersonFootstepData)) :
    (GetFootstepSoundLoop s Surface RandRange Mappings).state.CrouchPhase = s.CrouchPhase ∧
    (GetFootstepSoundLoop s Surface RandRange Mappings).state.bWantsToCrouch
      = s.bWantsToCrouch := by
  induction Mappings with
  | nil => simp [GetFootstepSoundLoop]
  | cons e rest ih =>
    cases e with
    | none => simpa [GetFootstepSoundLoop] using ih
    | some X =>
      by_cases hX : X.GetPhysicalMaterial = Surface
      · simp only [GetFootstepSoundLoop, hX, if_true]
        split <;> simp
      · simpa [GetFootstepSoundLoop, hX] using ih

/-- The footstep event leaves phase and crouch intent alone. -/
theorem PlayFootstepSound_crouch_frame (s : AFPCharacter) (w : World) :
    (PlayFootstepSound s w).state.CrouchPhase = s.CrouchPhase ∧
    (PlayFootstepSound s w).state.bWantsToCrouch = s.bWantsToCrouch := by
  have f1 := GetFootstepSoundLoop_crouch_frame { s with FloorResult := w.FindFloor }
    w.FindFloor.HitResult.PhysMaterial (w.RandRange 0) s.FootstepSettings.Mappings
  unfold PlayFootstepSound
  by_cases hhit : w.FindFloor.bBlockingHit = true
  · simp only [hhit, if_true]
    unfold GetFootstepSound
    split
    · simpa using f1
    · split
      · have f2 := GetFootstepSoundLoop_crouch_frame
          (GetFootstepSoundLoop { s with FloorResult := w.FindFloor }
            w.FindFloor.HitResult.PhysMaterial (w.RandRange 0)
            s.FootstepSettings.Mappings).state
          w.FindFloor.HitResult.PhysMaterial (w.RandRange 1)
          (GetFootstepSoundLoop { s with FloorResult := w.FindFloor }
            w.FindFloor.HitResult.PhysMaterial (w.RandRange 0)
            s.FootstepSettings.Mappings).state.FootstepSettings.Mappings
        split <;> simp_all
      · simpa using f1
  · simp [hhit]

/-- MoveForward leaves phase and crouch intent alone. -/
theorem MoveForward_crouch_frame (s : AFPCharacter) (w : World) (AxisValue : ℚ) :
    (MoveForward s w AxisValue).state.CrouchPhase = s.CrouchPhase ∧
    (MoveForward s w AxisValue).state.bWantsToCrouch = s.bWantsToCrouch := by
  have hacc : (AccumulateTravel s w).CrouchPhase = s.CrouchPhase ∧
      (AccumulateTravel s w).bWantsToCrouch = s.bWantsToCrouch := by
    unfold AccumulateTravel
    split
    · simp
    · split <;> simp
  have hplay := PlayFootstepSound_crouch_frame (AccumulateTravel s w) w
  unfold MoveForward
  cases s.Controller with
  | none => simp
  | some c =>
    simp only
    split
    · split
      · split <;> simp_all
      · simpa using hacc
    · simp

/-- Landed leaves phase and crouch intent alone. -/
theorem Landed_crouch_frame (s : AFPCharacter) (w : World) (Hit : FHitResult) :
    (Landed s w Hit).state.CrouchPhase = s.CrouchPhase ∧
    (Landed s w Hit).state.bWantsToCrouch = s.bWantsToCrouch := by
  have hplay := PlayFootstepSound_crouch_frame s w
  unfold Landed
  split
  · cases s.PlayerController with
    | none => simp
    | some c =>
      simp only
      split
      · simpa using hplay
      · simp
  · simp

/-- Jump leaves the state alone. -/
theorem Jump_state (s : AFPCharacter) : (Jump s).state = s := by
  unfold Jump
  split
  · cases s.PlayerController <;> simp
  · simp

/-- StartCrouch keeps intent and phase coherent. -/
theorem StartCrouch_coherent (s : AFPCharacter) (w : World) (h : Coherent s) :
    Coherent (StartCrouch s w) := by
  unfold StartCrouch
  cases s.Movement.CrouchActionType with
  | Hold => simp [Coherent]
  | Toggle =>
    simp only
    split
    · simp [Coherent]
    · split
      · simp [Coherent]
      · exact h

/-- StopCrouching keeps intent and phase coherent. -/
theorem StopCrouching_coherent (s : AFPCharacter) (h : Coherent s) :
    Coherent (StopCrouching s) := by
  unfold StopCrouching
  split
  · simp [Coherent]
  · exact h

/-- UpdateCrouch keeps intent and phase coherent. -/
theorem UpdateCrouch_coherent (s : AFPCharacter) (w : World) (DeltaTime : ℚ) (h : Coherent s) :
    Coherent (UpdateCrouch s w DeltaTime) := by
  by_cases hphase : s.CrouchPhase = ECrouchPhase.InTransition
  · cases hwant : s.bWantsToCrouch with
    | true =>
      by_cases hnear : |FMath.Lerp s.CapsuleHalfHeight (s.OriginalCapsuleHalfHeight / 2)
          (StepFactor s DeltaTime) - s.OriginalCapsuleHalfHeight / 2| ≤ 2
      · rw [UpdateCrouch_down_commit s w DeltaTime hphase hwant hnear]
        simp [Coherent, CommitCrouching, hwant]
      · rw [UpdateCrouch_down_continue s w DeltaTime hphase hwant hnear]
        simp [Coherent, hphase]
    | false =>
      by_cases hfree : StandUpBlocked s w = false
      · by_cases hnear : |FMath.Lerp s.CapsuleHalfHeight s.OriginalCapsuleHalfHeight
            (StepFactor s DeltaTime) - s.OriginalCapsuleHalfHeight| ≤ 2
        · rw [UpdateCrouch_up_commit s w DeltaTime hphase hwant hfree hnear]
          simp [Coherent, CommitStanding, hwant]
        · rw [UpdateCrouch_up_continue s w DeltaTime hphase hwant hfree hnear]
          simp [Coherent, hphase]
      · have hblocked : StandUpBlocked s w = true := by simpa using hfree
        have hstep : UpdateCrouch s w DeltaTime = s := by
          unfold StandUpBlocked at hblocked
          simp [UpdateCrouch, hphase, hwant, hblocked]
        rw [hstep]
        exact h
  · rw [UpdateCrouch_not_in_transition s w DeltaTime hphase]
    exact h

/-- UpdateWalkingSpeed leaves phase and crouch intent alone. -/
theorem UpdateWalkingSpeed_crouch_frame (s : AFPCharacter) :
    (UpdateWalkingSpeed s).CrouchPhase = s.CrouchPhase ∧
    (UpdateWalkingSpeed s).bWantsToCrouch = s.bWantsToCrouch := by
  unfold UpdateWalkingSpeed
  split <;> simp

/-- A state with the same phase and crouch intent as a coherent state is coherent. -/
theorem Coherent_of_frame (s t : AFPCharacter) (h : Coherent s)
    (hframe : t.CrouchPhase = s.CrouchPhase ∧ t.bWantsToCrouch = s.bWantsToCrouch) :
    Coherent t := by
  unfold Coherent at h ⊢
  rw [hframe.1, hframe.2]
  exact h

/-- Every operation keeps intent and phase coherent. -/
theorem ApplyOp_coherent (s : AFPCharacter) (op : Op) (h : Coherent s) :
    Coherent (ApplyOp s op) := by
  cases op with
  | StartCrouch w => exact StartCrouch_coherent s w h
  | StopCrouching => exact StopCrouching_coherent s h
  | Tick w DeltaTime =>
    exact Coherent_of_frame _ _ (UpdateCrouch_coherent s w DeltaTime h)
      (UpdateWalkingSpeed_crouch_frame _)
  | Run => exact Coherent_of_frame s _ h ⟨rfl, rfl⟩
  | StopRunning => exact Coherent_of_frame s _ h ⟨rfl, rfl⟩
  | Jump =>
    show Coherent (Jump s).state
    rw [Jump_state]
    exact h
  | Landed w Hit => exact Coherent_of_frame s _ h (Landed_crouch_frame s w Hit)
  | MoveForward w AxisValue => exact Coherent_of_frame s _ h (MoveForward_crouch_frame s w AxisValue)

/-- Every run of operations keeps intent and phase coherent. -/
theorem RunOps_coherent (ops : List Op) (s : AFPCharacter) (h : Coherent s) :
    Coherent (RunOps s ops) := by
  induction ops generalizing s with
  | nil => exact h
  | cons op rest ih => exact ih (ApplyOp s op) (ApplyOp_coherent s op h)

/-- C12: in every state reached from a constructed initial state (Standing, bWantsToCrouch
false) by any sequence of StartCrouch, StopCrouching, Tick, Run, StopRunning, Jump, Landed and
MoveForward, in either crouch mode and with any results of the blocked check, CrouchPhase =
Standing implies bWantsToCrouch = false and CrouchPhase = Crouching implies bWantsToCrouch =
true. -/
theorem intent_and_phase_coherent (s0 : AFPCharacter) (ops : List Op)
    (hphase : s0.CrouchPhase = ECrouchPhase.Standing)
    (hwant : s0.bWantsToCrouch = false) :
    ((RunOps s0 ops).CrouchPhase = ECrouchPhase.Standing →
      (RunOps s0 ops).bWantsToCrouch = false) ∧
    ((RunOps s0 ops).CrouchPhase = ECrouchPhase.Crouching →
      (RunOps s0 ops).bWantsToCrouch = true) :=
  RunOps_coherent ops s0 ⟨fun _ => hwant, fun h => by rw [hphase] at h; cases h⟩

/-- Witness of C12: the default Hold-mode character presses crouch, ticks once with step factor
1 under a free sky (which commits to Crouching) and runs: the phase is Crouching and
bWantsToCrouch is true. -/
theorem intent_and_phase_coherent_witness :
    ((RunOps (standingCharacter EPlayerActionType.Hold)
        [Op.StartCrouch freeWorld, Op.Tick freeWorld (1 / 10), Op.Run]).CrouchPhase
          = ECrouchPhase.Standing →
      (RunOps (standingCharacter EPlayerActionType.Hold)
        [Op.StartCrouch freeWorld, Op.Tick freeWorld (1 / 10), Op.Run]).bWantsToCrouch = false) ∧
    ((RunOps (standingCharacter EPlayerActionType.Hold)
        [Op.StartCrouch freeWorld, Op.Tick freeWorld (1 / 10), Op.Run]).CrouchPhase
          = ECrouchPhase.Crouching →
      (RunOps (standingCharacter EPlayerActionType.Hold)
        [Op.StartCrouch freeWorld, Op.Tick freeWorld (1 / 10), Op.Run]).bWantsToCrouch = true) :=
  intent_and_phase_coherent (standingCharacter EPlayerActionType.Hold)
    [Op.StartCrouch freeWorld, Op.Tick freeWorld (1 / 10), Op.Run] rfl rfl

end AFPCharacter

end FPCharacter
